import Mathlib

/-!
Verification of the abstreet map/simulation core against its specification.

Shallow embedding of:
- the intersection arbiter (src/sim/src/mechanics/intersection.rs),
- the trip manager (src/sim/src/trips.rs),
- the pathfinders (src/map_model/src/pathfind/{walking,driving}.rs),
- dead-end intersection geometry (src/map_model/src/make/initial/geometry.rs),
- road splitting (src/convert_osm/src/split_ways.rs).

Durations and distances are embedded as rationals.  Rust functions that can
panic (assert!, unwrap, unreachable!, indexing) return `Option`, with `none`
standing for the panic.  Code of the repository that is not part of the
extracted sources (the geom PolyLine library, map_model's Turn/TurnPriority
and control types) is modelled from the spec, marked in doc comments.
-/

namespace ABStreet

/-! ## Shared identifiers -/

abbrev LaneID := Nat

abbrev RoadID := Nat

abbrev IntersectionID := Nat

abbrev CarID := Nat

abbrev PedestrianID := Nat

abbrev BuildingID := Nat

abbrev BusRouteID := Nat

abbrev BusStopID := Nat

abbrev ParkingSpot := Nat

/-- AgentID from the sim crate: a car or a pedestrian. -/
inductive AgentID
  | car (id : CarID)
  | pedestrian (id : PedestrianID)
deriving DecidableEq, Repr

/-- TurnID from map_model: (parent intersection, source lane, destination lane). -/
structure TurnID where
  parent : IntersectionID
  src : LaneID
  dst : LaneID
deriving DecidableEq, Repr

/-- Modelled from the spec: turn classification (§3, data model of Turn). -/
inductive TurnType
  | Straight
  | Left
  | Right
  | LaneChangeLeft
  | LaneChangeRight
  | SharedSidewalkCorner
  | Crosswalk
deriving DecidableEq, Repr

/-- Modelled from the spec: turn priorities used by stop signs and signal
cycles; map_model's `TurnPriority` is not in the extracted sources.  §4.5
ranks them Priority > Yield > Stop > Banned. -/
inductive TurnPriority
  | Banned
  | Stop
  | Yield
  | Priority
deriving DecidableEq, Repr

/-- Rank of a priority, realising the spec ordering Priority > Yield > Stop >
Banned for the stop-sign policy comparisons. -/
def TurnPriority.rank : TurnPriority → Nat
  | .Banned => 0
  | .Stop => 1
  | .Yield => 2
  | .Priority => 3

/-- Modelled from the spec: the part of the cooked map the arbiter consults.
`turnType` classifies each turn; `crossPairs` records which pairs of turn
geometries cross (the geometry test itself is the prerequisite library of §1;
it is symmetric, which the symmetric closure below realises). -/
structure ArbMap where
  turnType : TurnID → TurnType
  crossPairs : List (TurnID × TurnID)

/-- Whether two turns' geometries cross: symmetric closure of the recorded
crossing pairs. -/
def ArbMap.geomCross (m : ArbMap) (t1 t2 : TurnID) : Bool :=
  m.crossPairs.contains (t1, t2) || m.crossPairs.contains (t2, t1)

/-- Whether a turn type is a lane change. -/
def TurnType.isLaneChange : TurnType → Bool
  | .LaneChangeLeft => true
  | .LaneChangeRight => true
  | _ => false

/-- Modelled from the spec: `Turn::conflicts_with` (map_model, not in the
extracted sources).  §4.3: two turns at the same intersection conflict iff
their geometries cross or they share a destination lane; LaneChange turns
never conflict with anything; SharedSidewalkCorner turns never conflict. -/
def ArbMap.conflicts_with (m : ArbMap) (t1 t2 : TurnID) : Bool :=
  if (m.turnType t1).isLaneChange || (m.turnType t2).isLaneChange
      || (m.turnType t1 == TurnType.SharedSidewalkCorner)
      || (m.turnType t2 == TurnType.SharedSidewalkCorner) then
    false
  else
    m.geomCross t1 t2 || (t1.dst == t2.dst)

/-! ## Intersection arbiter (src/sim/src/mechanics/intersection.rs) -/

/-- WAIT_AT_STOP_SIGN constant: 0.5 seconds (line 11 of intersection.rs). -/
def WAIT_AT_STOP_SIGN : ℚ := 1/2

/-- Request from intersection.rs: an (agent, turn) pair. -/
structure Request where
  agent : AgentID
  turn : TurnID
deriving DecidableEq, Repr

/-- Per-intersection arbiter state: the accepted set and the waiting map
(request → time it was first made).  BTreeSet/BTreeMap are embedded as lists
with set/map semantics preserved by the insertion helpers. -/
structure State where
  accepted : List Request
  waiting : List (Request × ℚ)
deriving DecidableEq, Repr

/-- Lookup in the waiting map (BTreeMap keyed by Request). -/
def waitingLookup (w : List (Request × ℚ)) (r : Request) : Option ℚ :=
  (w.find? (fun p => decide (p.1 = r))).map (fun p => p.2)

/-- BTreeMap `entry(req).or_insert(now)`: insert only when the key is absent. -/
def waitingInsert (w : List (Request × ℚ)) (r : Request) (now : ℚ) :
    List (Request × ℚ) :=
  if (waitingLookup w r).isSome then w else w ++ [(r, now)]

/-- BTreeMap `remove(&req)`: drop the key. -/
def waitingRemove (w : List (Request × ℚ)) (r : Request) : List (Request × ℚ) :=
  w.filter (fun p => decide (p.1 ≠ r))

/-- BTreeSet `insert`: no-op when already present. -/
def acceptedInsert (a : List Request) (r : Request) : List Request :=
  if r ∈ a then a else r :: a

/-- Modelled from the spec: `ControlStopSign` (map_model, not in the extracted
sources) as far as the arbiter uses it: a total ranking of the intersection's
turns (§4.5). -/
structure ControlStopSign where
  turns : TurnID → TurnPriority

/-- Modelled from the spec: `ControlTrafficSignal` (map_model, not in the
extracted sources) as far as the arbiter uses it: at any time,
`current_cycle_and_remaining_time` yields the current cycle, which assigns
each turn a priority (§4.5, glossary "Cycle"). -/
structure ControlTrafficSignal where
  cycleAt : ℚ → TurnID → TurnPriority

/-- Which control governs the intersection, mirroring the dispatch in
`maybe_start_turn` (maybe_get_traffic_signal / maybe_get_stop_sign / else). -/
inductive Control
  | trafficSignal (signal : ControlTrafficSignal)
  | stopSign (sign : ControlStopSign)
  | freeform

/-- `State::any_accepted_conflict_with` (intersection.rs lines 173-178). -/
def State.any_accepted_conflict_with (s : State) (t : TurnID) (m : ArbMap) : Bool :=
  s.accepted.any (fun req => m.conflicts_with req.turn t)

/-- `State::freeform_policy` (intersection.rs lines 180-187). -/
def State.freeform_policy (s : State) (req : Request) (m : ArbMap) : Bool :=
  if s.any_accepted_conflict_with req.turn m then false else true

/-- `State::stop_sign_policy` (intersection.rs lines 189-229).  Returns
`none` on panic (`assert!(our_priority != TurnPriority::Banned)`, or the
`self.waiting[req]` index).  On success, the Bool is the grant decision and
the list is the scheduler's queue of (wakeup time, agent) pushes. -/
def State.stop_sign_policy (s : State) (sign : ControlStopSign) (req : Request)
    (now : ℚ) (m : ArbMap) (sched : List (ℚ × AgentID)) :
    Option (Bool × List (ℚ × AgentID)) :=
  if s.any_accepted_conflict_with req.turn m then
    some (false, sched)
  else
    let our_priority := sign.turns req.turn
    if our_priority = TurnPriority.Banned then
      none
    else
      match waitingLookup s.waiting req with
      | none => none
      | some our_time =>
        if our_priority = TurnPriority.Stop ∧ now < our_time + WAIT_AT_STOP_SIGN then
          some (false, sched ++ [(our_time + WAIT_AT_STOP_SIGN, req.agent)])
        else if s.waiting.any (fun p =>
            ((sign.turns p.1.turn).rank > our_priority.rank : Bool)
              || ((sign.turns p.1.turn == our_priority) && decide (p.2 < our_time))) then
          some (false, sched)
        else
          some (true, sched)

/-- `State::traffic_signal_policy` (intersection.rs lines 231-279). -/
def State.traffic_signal_policy (s : State) (signal : ControlTrafficSignal)
    (new_req : Request) (time : ℚ) (m : ArbMap) : Bool :=
  let cycle := signal.cycleAt time
  if s.accepted.any (fun req => cycle req.turn == TurnPriority.Banned) then
    false
  else if cycle new_req.turn = TurnPriority.Banned then
    false
  else if s.any_accepted_conflict_with new_req.turn m then
    false
  else if cycle new_req.turn = TurnPriority.Yield
      ∧ s.waiting.any (fun p =>
          m.conflicts_with new_req.turn p.1.turn
            && (cycle p.1.turn == TurnPriority.Priority)) then
    false
  else
    true

/-- `IntersectionSimState::maybe_start_turn` (intersection.rs lines 109-138),
restricted to one intersection's state (the function only ever touches
`state[turn.parent]`).  Returns `none` on panic (the
`assert!(!state.any_accepted_conflict_with(..))` or the `.remove().unwrap()`),
otherwise the grant decision, the new state and the scheduler queue. -/
def maybe_start_turn (m : ArbMap) (ctrl : Control) (s : State)
    (sched : List (ℚ × AgentID)) (agent : AgentID) (turn : TurnID) (now : ℚ) :
    Option (Bool × State × List (ℚ × AgentID)) :=
  let req : Request := ⟨agent, turn⟩
  let s1 : State := { s with waiting := waitingInsert s.waiting req now }
  let res : Option (Bool × List (ℚ × AgentID)) :=
    match ctrl with
    | .trafficSignal signal => some (s1.traffic_signal_policy signal req now m, sched)
    | .stopSign sign => s1.stop_sign_policy sign req now m sched
    | .freeform => some (s1.freeform_policy req m, sched)
  match res with
  | none => none
  | some (allowed, sched') =>
    if allowed then
      if s1.any_accepted_conflict_with turn m then
        none
      else if (waitingLookup s1.waiting req).isSome then
        some (true,
          { accepted := acceptedInsert s1.accepted req,
            waiting := waitingRemove s1.waiting req },
          sched')
      else
        none
    else
      some (false, s1, sched')

/-- `IntersectionSimState::turn_finished` (intersection.rs lines 58-78).
`none` on the `assert!(state.accepted.remove(..))` panic; otherwise the new
state and the scheduler queue extended by one wakeup per waiting agent. -/
def turn_finished (s : State) (sched : List (ℚ × AgentID)) (agent : AgentID)
    (turn : TurnID) (now : ℚ) : Option (State × List (ℚ × AgentID)) :=
  let req : Request := ⟨agent, turn⟩
  if req ∈ s.accepted then
    some ({ s with accepted := s.accepted.filter (fun r => decide (r ≠ req)) },
      sched ++ s.waiting.map (fun p => (now, p.1.agent)))
  else
    none

/-- States of one intersection reachable from the initial empty state by any
sequence of `maybe_start_turn` and `turn_finished` calls that do not panic. -/
inductive Reach (m : ArbMap) (ctrl : Control) : State → Prop
  | init : Reach m ctrl ⟨[], []⟩
  | start (s : State) (sched : List (ℚ × AgentID)) (agent : AgentID)
      (turn : TurnID) (now : ℚ) (granted : Bool) (s' : State)
      (sched' : List (ℚ × AgentID)) :
      Reach m ctrl s →
      maybe_start_turn m ctrl s sched agent turn now = some (granted, s', sched') →
      Reach m ctrl s'
  | finish (s : State) (sched : List (ℚ × AgentID)) (agent : AgentID)
      (turn : TurnID) (now : ℚ) (s' : State) (sched' : List (ℚ × AgentID)) :
      Reach m ctrl s →
      turn_finished s sched agent turn now = some (s', sched') →
      Reach m ctrl s'

/-- No two distinct accepted requests have conflicting turns. -/
def acceptedOk (m : ArbMap) (s : State) : Prop :=
  ∀ r1 ∈ s.accepted, ∀ r2 ∈ s.accepted, r1 ≠ r2 →
    m.conflicts_with r1.turn r2.turn = false

/-- Concrete map for the C9 counterexample: turn (0,1,2) geometrically
crosses turn (0,3,4). -/
def c9map : ArbMap := ⟨fun _ => TurnType.Straight, [(⟨0, 1, 2⟩, ⟨0, 3, 4⟩)]⟩

/-- Concrete stop sign for the C9 counterexample: the candidate turn (0,3,4)
is Banned. -/
def c9sign : ControlStopSign :=
  ⟨fun t => if t = ⟨0, 3, 4⟩ then TurnPriority.Banned else TurnPriority.Priority⟩

/-! ## Trip manager (src/sim/src/trips.rs) -/

/-- Vehicle types from the sim crate. -/
inductive VehicleType
  | car
  | bike
  | bus
deriving DecidableEq, Repr

/-- Vehicle as far as trips.rs uses it: its id and type. -/
structure Vehicle where
  id : CarID
  vehicle_type : VehicleType
deriving DecidableEq, Repr

/-- Position from map_model: a (lane, distance-along) pair. -/
structure Position where
  lane : LaneID
  dist_along : ℚ
deriving DecidableEq, Repr

/-- Lane types (§3): Driving, Parking, Biking, Bus, Sidewalk. -/
inductive LaneType
  | Driving
  | Parking
  | Biking
  | Bus
  | Sidewalk
deriving DecidableEq, Repr

/-- Modelled from the spec: DrivingGoal (sim code not under src/):
ParkNear(building) or Border(intersection, lane-type) (§9). -/
inductive DrivingGoal
  | parkNear (b : BuildingID)
  | border (i : IntersectionID) (lt : LaneType)
deriving DecidableEq, Repr

/-- Modelled from the spec: the connection of a sidewalk spot (sim code not
under src/); trips.rs matches on the BikeRack variant. -/
inductive SidewalkPOI
  | parkingSpot (spot : ParkingSpot)
  | building (b : BuildingID)
  | busStop (bs : BusStopID)
  | bikeRack (pos : Position)
  | border (i : IntersectionID)
deriving DecidableEq, Repr

/-- Modelled from the spec: SidewalkSpot (sim code not under src/): a
sidewalk position plus what it connects to. -/
structure SidewalkSpot where
  sidewalk_pos : Position
  connection : SidewalkPOI
deriving DecidableEq, Repr

/-- TripLeg from trips.rs. -/
inductive TripLeg
  | walk (ped : PedestrianID) (speed : ℚ) (dest : SidewalkSpot)
  | drive (vehicle : Vehicle) (goal : DrivingGoal)
  | rideBus (ped : PedestrianID) (route : BusRouteID) (stop : BusStopID)
  | serveBusRoute (car : CarID) (route : BusRouteID)
deriving DecidableEq, Repr

/-- TripMode from trips.rs. -/
inductive TripMode
  | Walk
  | Bike
  | Transit
  | Drive
deriving DecidableEq, Repr

/-- Trip record from trips.rs. -/
structure Trip where
  id : Nat
  spawned_at : ℚ
  finished_at : Option ℚ
  legs : List TripLeg
  mode : TripMode
deriving DecidableEq, Repr

/-- The sim events pushed by the embedded handlers. -/
inductive Event
  | carReachedParkingSpot (car : CarID) (spot : ParkingSpot)
  | pedReachedParkingSpot (ped : PedestrianID) (spot : ParkingSpot)
  | bikeStoppedAtSidewalk (bike : CarID) (lane : LaneID)
  | carOrBikeReachedBorder (car : CarID) (i : IntersectionID)
deriving DecidableEq, Repr

/-- TripManager state from trips.rs. -/
structure TripManager where
  trips : List Trip
  active_trip_mode : List (AgentID × Nat)
  num_bus_trips : Nat
  unfinished_trips : Nat
  events : List Event
deriving DecidableEq, Repr

/-- Scheduler commands pushed by the embedded handlers (payloads reduced to
the identifying data). -/
inductive Command
  | spawnCar (vehicle : Vehicle) (retryIfNoRoom : Bool)
  | spawnPed (ped : PedestrianID)
deriving DecidableEq, Repr

/-- Markers for the println messages the handlers emit on trip abortion. -/
inductive Msg
  | abortNoPathCar
  | abortNoPathBike
  | abortNoPathWalk
  | abortStuck
deriving DecidableEq, Repr

/-- PathRequest from map_model. -/
structure PathRequest where
  start : Position
  endp : Position
  can_use_bus_lanes : Bool
  can_use_bike_lanes : Bool
deriving DecidableEq, Repr

/-- PathStep from map_model's pathfinding. -/
inductive PathStep
  | lane (l : LaneID)
  | contraflowLane (l : LaneID)
  | turn (t : TurnID)
deriving DecidableEq, Repr

/-- Modelled from the spec: Path (map_model code not under src/) as the data
`Path::new(map, steps, end_dist)` stores: the step sequence and the
distance-along at the endpoint. -/
structure Path where
  steps : List PathStep
  end_dist : ℚ
deriving DecidableEq, Repr

/-- Modelled from the spec: a parked car as trips.rs reads it (vehicle plus
the driving position `get_driving_pos` yields). -/
structure ParkedCar where
  vehicle : Vehicle
  driving_pos : Position
deriving DecidableEq, Repr

/-- Modelled from the spec: the collaborators trips.rs calls into — the map
pathfinder (`Map::pathfind`, a sum-typed outcome per §7), the SidewalkSpot
constructors and the parking sim lookup — none of which are under src/. -/
structure TripsEnv where
  pathfind : PathRequest → Option Path
  parking_spot : ParkingSpot → SidewalkSpot
  get_car_at_spot : ParkingSpot → Option ParkedCar
  goal_pos : DrivingGoal → Position

/-- BTreeMap `remove(&k)` returning the removed value and the rest. -/
def assocRemove (l : List (AgentID × Nat)) (k : AgentID) :
    Option (Nat × List (AgentID × Nat)) :=
  match l.find? (fun p => decide (p.1 = k)) with
  | none => none
  | some p => some (p.2, l.filter (fun q => decide (q.1 ≠ k)))

/-- Result of a trip-manager event handler: `none` is a panic, otherwise the
new manager, the scheduler pushes, and the emitted messages. -/
abbrev TripStep := Option (TripManager × List (ℚ × Command) × List Msg)

/-- `Trip::assert_walking_leg` (trips.rs lines 484-492): pop the head leg,
asserting it is the expected Walk leg. -/
def Trip.assert_walking_leg (trip : Trip) (ped : PedestrianID)
    (goal : SidewalkSpot) : Option Trip :=
  match trip.legs with
  | TripLeg.walk p _ spot :: rest =>
    if ped = p ∧ goal = spot then some { trip with legs := rest } else none
  | _ => none

/-- `Trip::spawn_ped` (trips.rs lines 443-482): reads the head Walk leg
(without popping), attempts the walking pathfinding; on success schedules a
SpawnPed and returns true, on failure prints the abort message and returns
false.  `none` is the `unreachable!()` for a non-Walk head leg. -/
def Trip.spawn_ped (env : TripsEnv) (trip : Trip) (time : ℚ)
    (start : SidewalkSpot) : Option (Bool × List (ℚ × Command) × List Msg) :=
  match trip.legs with
  | TripLeg.walk ped _speed walk_to :: _ =>
    match env.pathfind ⟨start.sidewalk_pos, walk_to.sidewalk_pos, false, false⟩ with
    | some _p => some (true, [(time, Command.spawnPed ped)], [])
    | none => some (false, [], [Msg.abortNoPathWalk])
  | _ => none

/-- `TripManager::car_reached_parking_spot` (trips.rs lines 84-109). -/
def TripManager.car_reached_parking_spot (env : TripsEnv) (tm : TripManager)
    (time : ℚ) (car : CarID) (spot : ParkingSpot) : TripStep :=
  let events := tm.events ++ [Event.carReachedParkingSpot car spot]
  match assocRemove tm.active_trip_mode (AgentID.car car) with
  | none => none
  | some (idx, atm) =>
    match tm.trips[idx]? with
    | none => none
    | some trip =>
      match trip.legs with
      | TripLeg.drive vehicle (DrivingGoal.parkNear _) :: rest =>
        if car = vehicle.id then
          let trip1 : Trip := { trip with legs := rest }
          match trip1.spawn_ped env time (env.parking_spot spot) with
          | none => none
          | some (ok, cmds, msgs) =>
            if ok then
              some ({ tm with
                        events := events
                        active_trip_mode := atm
                        trips := tm.trips.set idx trip1 }, cmds, msgs)
            else
              some ({ tm with
                        events := events
                        active_trip_mode := atm
                        trips := tm.trips.set idx trip1
                        unfinished_trips := tm.unfinished_trips - 1 }, cmds, msgs)
        else none
      | _ => none

/-- `TripManager::ped_reached_parking_spot` (trips.rs lines 111-161). -/
def TripManager.ped_reached_parking_spot (env : TripsEnv) (tm : TripManager)
    (time : ℚ) (ped : PedestrianID) (spot : ParkingSpot) : TripStep :=
  let events := tm.events ++ [Event.pedReachedParkingSpot ped spot]
  match assocRemove tm.active_trip_mode (AgentID.pedestrian ped) with
  | none => none
  | some (idx, atm) =>
    match tm.trips[idx]? with
    | none => none
    | some trip =>
      match trip.assert_walking_leg ped (env.parking_spot spot) with
      | none => none
      | some trip1 =>
        match trip1.legs with
        | TripLeg.drive vehicle drive_to :: _ =>
          match env.get_car_at_spot spot with
          | none => none
          | some parked_car =>
            if parked_car.vehicle.id = vehicle.id then
              match env.pathfind
                  ⟨parked_car.driving_pos, env.goal_pos drive_to, false, false⟩ with
              | some _p =>
                some ({ tm with
                          events := events
                          active_trip_mode := atm
                          trips := tm.trips.set idx trip1 },
                  [(time, Command.spawnCar parked_car.vehicle true)], [])
              | none =>
                some ({ tm with
                          events := events
                          active_trip_mode := atm
                          trips := tm.trips.set idx trip1
                          unfinished_trips := tm.unfinished_trips - 1 },
                  [], [Msg.abortNoPathCar])
            else none
        | _ => none

/-- `TripManager::ped_ready_to_bike` (trips.rs lines 163-212).  This handler
pushes no event. -/
def TripManager.ped_ready_to_bike (env : TripsEnv) (tm : TripManager)
    (time : ℚ) (ped : PedestrianID) (spot : SidewalkSpot) : TripStep :=
  match assocRemove tm.active_trip_mode (AgentID.pedestrian ped) with
  | none => none
  | some (idx, atm) =>
    match tm.trips[idx]? with
    | none => none
    | some trip =>
      match trip.assert_walking_leg ped spot with
      | none => none
      | some trip1 =>
        match trip1.legs with
        | TripLeg.drive vehicle drive_to :: _ =>
          match spot.connection with
          | SidewalkPOI.bikeRack driving_pos =>
            match env.pathfind
                ⟨driving_pos, env.goal_pos drive_to, false, true⟩ with
            | some _p =>
              some ({ tm with
                        active_trip_mode := atm
                        trips := tm.trips.set idx trip1 },
                [(time, Command.spawnCar vehicle true)], [])
            | none =>
              some ({ tm with
                        active_trip_mode := atm
                        trips := tm.trips.set idx trip1
                        unfinished_trips := tm.unfinished_trips - 1 },
                [], [Msg.abortNoPathBike])
          | _ => none
        | _ => none

/-- `TripManager::car_or_bike_reached_border` (trips.rs lines 337-356).  On a
head leg that is not a Drive-to-Border, the source prints "Aborting trip ...
couldn't find parking and got stuck" and decrements `unfinished_trips`
instead of asserting. -/
def TripManager.car_or_bike_reached_border (tm : TripManager) (time : ℚ)
    (car : CarID) (i : IntersectionID) : TripStep :=
  let events := tm.events ++ [Event.carOrBikeReachedBorder car i]
  match assocRemove tm.active_trip_mode (AgentID.car car) with
  | none => none
  | some (idx, atm) =>
    match tm.trips[idx]? with
    | none => none
    | some trip =>
      match trip.legs with
      | [] => none
      | leg :: rest =>
        match leg with
        | TripLeg.drive _ (DrivingGoal.border int _) =>
          if i = int then
            if rest = [] then
              if trip.finished_at = none then
                some ({ tm with
                          events := events
                          active_trip_mode := atm
                          trips := tm.trips.set idx
                            { trip with
                                legs := rest
                                finished_at := some time }
                          unfinished_trips := tm.unfinished_trips - 1 }, [], [])
              else none
            else none
          else none
        | _ =>
          some ({ tm with
                    events := events
                    active_trip_mode := atm
                    trips := tm.trips.set idx { trip with legs := rest }
                    unfinished_trips := tm.unfinished_trips - 1 },
            [], [Msg.abortStuck])

/-- Concrete environment for the C4 scenarios: pathfinding always fails. -/
def c4env : TripsEnv where
  pathfind := fun _ => none
  parking_spot := fun sp => ⟨⟨0, 0⟩, SidewalkPOI.parkingSpot sp⟩
  get_car_at_spot := fun _ => some ⟨⟨5, VehicleType.car⟩, ⟨1, 0⟩⟩
  goal_pos := fun _ => ⟨2, 0⟩

/-- Concrete trip manager for the C4 counterexample: one active walking
pedestrian whose trip still has a driving leg. -/
def c4tm : TripManager where
  trips := [⟨0, 0, none,
    [TripLeg.walk 3 1 ⟨⟨0, 0⟩, SidewalkPOI.parkingSpot 0⟩,
     TripLeg.drive ⟨5, VehicleType.car⟩ (DrivingGoal.parkNear 9)], TripMode.Drive⟩]
  active_trip_mode := [(AgentID.pedestrian 3, 0)]
  num_bus_trips := 0
  unfinished_trips := 1
  events := []

/-- Concrete trip manager for the C7 counterexample: an active car whose head
leg is Drive-to-ParkNear, about to be reported at a border. -/
def c7tm : TripManager where
  trips := [⟨0, 0, none,
    [TripLeg.drive ⟨5, VehicleType.car⟩ (DrivingGoal.parkNear 9)], TripMode.Drive⟩]
  active_trip_mode := [(AgentID.car 5, 0)]
  num_bus_trips := 0
  unfinished_trips := 1
  events := []

/-- Concrete trip manager for the C4 biking scenario: the pedestrian is
walking to a bike rack. -/
def c4tmBike : TripManager where
  trips := [⟨0, 0, none,
    [TripLeg.walk 3 1 ⟨⟨0, 0⟩, SidewalkPOI.bikeRack ⟨4, 0⟩⟩,
     TripLeg.drive ⟨6, VehicleType.bike⟩ (DrivingGoal.parkNear 9)], TripMode.Bike⟩]
  active_trip_mode := [(AgentID.pedestrian 3, 0)]
  num_bus_trips := 0
  unfinished_trips := 1
  events := []

/-- Concrete trip manager for the C4 walking scenario: the car has parked and
the next leg is a walk. -/
def c4tmWalk : TripManager where
  trips := [⟨0, 0, none,
    [TripLeg.drive ⟨5, VehicleType.car⟩ (DrivingGoal.parkNear 9),
     TripLeg.walk 3 1 ⟨⟨7, 0⟩, SidewalkPOI.building 9⟩], TripMode.Drive⟩]
  active_trip_mode := [(AgentID.car 5, 0)]
  num_bus_trips := 0
  unfinished_trips := 1
  events := []

/-- Concrete trip manager for the C7 walking-leg mismatches: the active
pedestrian's head leg is a Drive, so any walking event is a leg mismatch. -/
def c7tmMismatch : TripManager where
  trips := [⟨0, 0, none,
    [TripLeg.drive ⟨5, VehicleType.car⟩ (DrivingGoal.parkNear 9)], TripMode.Drive⟩]
  active_trip_mode := [(AgentID.pedestrian 3, 0)]
  num_bus_trips := 0
  unfinished_trips := 1
  events := []

/-- Concrete trip manager for the C7 wrong-border scenario: the car's head
leg drives to border 4. -/
def c7tmBorder : TripManager where
  trips := [⟨0, 0, none,
    [TripLeg.drive ⟨5, VehicleType.car⟩ (DrivingGoal.border 4 LaneType.Driving)],
    TripMode.Drive⟩]
  active_trip_mode := [(AgentID.car 5, 0)]
  num_bus_trips := 0
  unfinished_trips := 1
  events := []

/-! ## Pathfinders (src/map_model/src/pathfind/driving.rs and walking.rs) -/

/-- DirectedRoadID from map_model: a (road, direction) pathfinder node
(§4.4). -/
structure DirectedRoadID where
  id : RoadID
  forwards : Bool
deriving DecidableEq, Repr

/-- Modelled from the spec: the Lane record (map_model code not under src/)
as far as the pathfinders use it — type, parent road, which side of the road
it is on (determining `get_directed_parent`), and its endpoints. -/
structure Lane where
  id : LaneID
  lane_type : LaneType
  parent : RoadID
  forwards : Bool
  src_i : IntersectionID
  dst_i : IntersectionID
deriving DecidableEq, Repr

/-- Modelled from the spec: a road's ordered child lanes split into forward
and backward sides (§3). -/
structure PRoad where
  children_forwards : List (LaneID × LaneType)
  children_backwards : List (LaneID × LaneType)
deriving DecidableEq, Repr

/-- Modelled from the spec: the cooked-map queries the pathfinders use
(map_model's Map is not under src/): lane and road lookup and the turn
list. -/
structure PMap where
  lanes : LaneID → Lane
  roads : RoadID → PRoad
  turns : List TurnID

/-- `Lane::get_directed_parent`: the directed road a lane belongs to. -/
def Lane.get_directed_parent (l : Lane) : DirectedRoadID := ⟨l.parent, l.forwards⟩

/-- Modelled from the spec: `Map::get_turns_from_lane` — the turns whose
source is the given lane. -/
def PMap.get_turns_from_lane (m : PMap) (l : LaneID) : List TurnID :=
  m.turns.filter (fun t => t.src == l)

/-- Modelled from the spec: `Map::get_turn_between` — a turn from `l1` to
`l2` at the given intersection, if any. -/
def PMap.get_turn_between (m : PMap) (l1 l2 : LaneID) (parent : IntersectionID) :
    Option TurnID :=
  m.turns.find? (fun t => t.parent == parent && t.src == l1 && t.dst == l2)

/-- Outcome from driving.rs (lines 18-22). -/
inductive Outcome
  | success (p : Path)
  | failure
  | retrySlow
deriving DecidableEq, Repr

/-- VehiclePathfinder from driving.rs: the prepared contraction hierarchy
(`rust_ch`, an external crate — `calc_path` embedded as a function from the
two node indices to the node list, empty for no path) and the lane-type
family. -/
structure VehiclePathfinder where
  ch : Nat → Nat → List Nat
  lane_types : List LaneType

/-- `node_idx` (driving.rs lines 135-142). -/
def node_idx (id : DirectedRoadID) : Nat :=
  if id.forwards then 2 * id.id else 2 * id.id + 1

/-- `idx_to_node` (driving.rs lines 144-151). -/
def idx_to_node (idx : Nat) : DirectedRoadID :=
  ⟨idx / 2, idx % 2 == 0⟩

/-- The step-reconstruction loop of `VehiclePathfinder::pathfind`
(driving.rs lines 82-120): pop directed roads off the CH path, at each
transition picking a turn whose destination lane admits a further turn into
the next directed road (one-step lookahead); the last turn's destination
must be the request's end lane.  `none` is the `unreachable!()` for a
non-Lane last step. -/
def vehicleSteps (m : PMap) (req : PathRequest) :
    List DirectedRoadID → List PathStep → Option Outcome
  | [], steps => some (Outcome.success ⟨steps, req.endp.dist_along⟩)
  | dr :: rest, steps =>
    if steps.isEmpty then
      vehicleSteps m req rest [PathStep.lane req.start.lane]
    else
      match steps.getLast? with
      | some (PathStep.lane from_lane) =>
        match (m.get_turns_from_lane from_lane).find? (fun t =>
          if rest.isEmpty then
            t.dst == req.endp.lane
          else
            let l := m.lanes t.dst
            if l.get_directed_parent == dr then
              (m.get_turns_from_lane l.id).any (fun t2 =>
                match rest.head? with
                | some nxt => (m.lanes t2.dst).get_directed_parent == nxt
                | none => false)
            else false) with
        | some turn =>
          vehicleSteps m req rest
            (steps ++ [PathStep.turn turn, PathStep.lane turn.dst])
        | none => some Outcome.retrySlow
      | _ => none

/-- `VehiclePathfinder::pathfind` (driving.rs lines 64-122): assert the start
is not a sidewalk, query the CH between the directed parents, fail on an
empty node list, otherwise reconstruct the steps.  There is no special case
for start and end on the same lane. -/
def VehiclePathfinder.pathfind (vp : VehiclePathfinder) (req : PathRequest)
    (m : PMap) : Option Outcome :=
  if (m.lanes req.start.lane).lane_type == LaneType.Sidewalk then
    none
  else
    let path := vp.ch (node_idx (m.lanes req.start.lane).get_directed_parent)
      (node_idx (m.lanes req.endp.lane).get_directed_parent)
    if path.isEmpty then some Outcome.failure
    else vehicleSteps m req (path.map idx_to_node) []

/-- SidewalkPathfinder from walking.rs: the A* query over the directed-road
sidewalk graph (petgraph, an external crate; edge weights are crossing
distances, bus rides are free, the heuristic is straight-line distance)
embedded as a function from the two directed roads to the optional node
list. -/
structure SidewalkPathfinder where
  astar : DirectedRoadID → DirectedRoadID → Option (List DirectedRoadID)

/-- `SidewalkPathfinder::get_sidewalk` (walking.rs lines 87-100): the first
sidewalk lane of a directed road; `none` is the `panic!("no sidewalk")`. -/
def PMap.get_sidewalk (m : PMap) (dr : DirectedRoadID) : Option LaneID :=
  let r := m.roads dr.id
  let lanes := if dr.forwards then r.children_forwards else r.children_backwards
  (lanes.find? (fun p => p.2 == LaneType.Sidewalk)).map (fun p => p.1)

/-- The window walk of `SidewalkPathfinder::pathfind` (walking.rs lines
145-171): for each adjacent pair of directed roads, push the lane (forward or
contraflow, unless just entered at that intersection) and the connecting
turn; `none` is the `back_t.unwrap()` panic (or a missing sidewalk). -/
def walkingSteps (m : PMap) :
    List DirectedRoadID → Option IntersectionID → List PathStep →
    Option (Option IntersectionID × List PathStep)
  | dr1 :: dr2 :: rest, current_i, steps =>
    match m.get_sidewalk dr1 with
    | none => none
    | some l1 =>
      let lane1 := m.lanes l1
      match m.get_sidewalk dr2 with
      | none => none
      | some l2 =>
        match m.get_turn_between lane1.id l2 lane1.dst_i with
        | some fwd_t =>
          walkingSteps m (dr2 :: rest) (some lane1.dst_i)
            ((if current_i ≠ some lane1.dst_i then
                steps ++ [PathStep.lane lane1.id] else steps)
              ++ [PathStep.turn fwd_t])
        | none =>
          match m.get_turn_between lane1.id l2 lane1.src_i with
          | some back_t =>
            walkingSteps m (dr2 :: rest) (some lane1.src_i)
              ((if current_i ≠ some lane1.src_i then
                  steps ++ [PathStep.contraflowLane lane1.id] else steps)
                ++ [PathStep.turn back_t])
          | none => none
  | _, current_i, steps => some (current_i, steps)

/-- `SidewalkPathfinder::pathfind` (walking.rs lines 102-184).  The outer
`Option` is panic (`none` = the `assert!` on equal distances, a missing
sidewalk, `back_t.unwrap()` or the final `unreachable!()`); the inner
`Option` is the function's `Option<Path>` result.  Same-lane requests are
special-cased to a one-step path before the A* query. -/
def SidewalkPathfinder.pathfind (sp : SidewalkPathfinder) (req : PathRequest)
    (m : PMap) : Option (Option Path) :=
  if req.start.lane = req.endp.lane then
    if req.start.dist_along = req.endp.dist_along then none
    else if req.start.dist_along < req.endp.dist_along then
      some (some ⟨[PathStep.lane req.start.lane], req.endp.dist_along⟩)
    else
      some (some ⟨[PathStep.contraflowLane req.start.lane], req.endp.dist_along⟩)
  else
    match sp.astar (m.lanes req.start.lane).get_directed_parent
        (m.lanes req.endp.lane).get_directed_parent with
    | none => some none
    | some raw_nodes =>
      match walkingSteps m raw_nodes none [] with
      | none => none
      | some (current_i, steps) =>
        match raw_nodes.getLast? with
        | none => none
        | some lastDr =>
          match m.get_sidewalk lastDr with
          | none => none
          | some lastL =>
            let last_lane := m.lanes lastL
            if some last_lane.src_i = current_i then
              some (some ⟨steps ++ [PathStep.lane last_lane.id],
                req.endp.dist_along⟩)
            else if some last_lane.dst_i = current_i then
              some (some ⟨steps ++ [PathStep.contraflowLane last_lane.id],
                req.endp.dist_along⟩)
            else none

/-- Concrete driving map for the C5 counterexample: a single driving lane 0
on road 0. -/
def c5pmap : PMap where
  lanes := fun _ => ⟨0, LaneType.Driving, 0, true, 0, 1⟩
  roads := fun _ => ⟨[(0, LaneType.Driving)], []⟩
  turns := []

/-- Concrete vehicle pathfinder for the C5 counterexample: the CH query from
a node to itself yields the one-node path. -/
def c5vp : VehiclePathfinder where
  ch := fun _ _ => [0]
  lane_types := [LaneType.Driving]

/-- Concrete same-lane request with start farther along than the end, for
which C5 expects a contraflow step. -/
def c5req : PathRequest := ⟨⟨0, 5⟩, ⟨0, 2⟩, false, false⟩

/-- Concrete sidewalk map for the C5/C8 witnesses. -/
def c8pmap : PMap where
  lanes := fun _ => ⟨0, LaneType.Sidewalk, 0, true, 0, 1⟩
  roads := fun _ => ⟨[(0, LaneType.Sidewalk)], []⟩
  turns := []

/-- Concrete sidewalk pathfinder (the A* is never reached by the same-lane
claims). -/
def c8sp : SidewalkPathfinder where
  astar := fun _ _ => none

/-! ## Dead-end intersection geometry (src/map_model/src/make/initial/geometry.rs) -/

/-- `DEGENERATE_INTERSECTION_HALF_LENGTH` constant: 5 m (geometry.rs line 7). -/
def DEGENERATE_INTERSECTION_HALF_LENGTH : ℚ := 5

/-- Modelled from the spec: the geom PolyLine library (a prerequisite library
per §1, not under src/).  A polyline is embedded by its arc-length
parameterization — the point at each distance along it — together with its
total length; points are rational coordinate pairs. -/
structure PolyLine where
  at_dist : ℚ → ℚ × ℚ
  len : ℚ

/-- Modelled from the spec: `PolyLine::length`. -/
def PolyLine.length (pl : PolyLine) : ℚ := pl.len

/-- Modelled from the spec: `PolyLine::reversed` traverses the same points in
the opposite direction. -/
def PolyLine.reversed (pl : PolyLine) : PolyLine :=
  ⟨fun d => pl.at_dist (pl.len - d), pl.len⟩

/-- Modelled from the spec: `PolyLine::first_pt`. -/
def PolyLine.first_pt (pl : PolyLine) : ℚ × ℚ := pl.at_dist 0

/-- Modelled from the spec: `PolyLine::last_pt`. -/
def PolyLine.last_pt (pl : PolyLine) : ℚ × ℚ := pl.at_dist pl.len

/-- Modelled from the spec: `PolyLine::safe_dist_along` — the point at the
given distance when it lies on the polyline (the angle component, which
`deadend` drops, is not modelled). -/
def PolyLine.safe_dist_along (pl : PolyLine) (d : ℚ) : Option (ℚ × ℚ) :=
  if 0 ≤ d ∧ d ≤ pl.len then some (pl.at_dist d) else none

/-- Modelled from the spec: `PolyLine::exact_slice` — the sub-polyline from
distance `a` to distance `b`; panics (`none`) when the range is not within
the polyline. -/
def PolyLine.exact_slice (pl : PolyLine) (a b : ℚ) : Option PolyLine :=
  if 0 ≤ a ∧ a ≤ b ∧ b ≤ pl.len then some ⟨fun d => pl.at_dist (a + d), b - a⟩
  else none

/-- `Pt2D::approx_eq` (src/geom/src/pt.rs lines 29-31): `self.dist_to(other)
<= threshold`, where `dist_to` (pt.rs lines 110-116) is the Euclidean
distance `sqrt((dx)^2 + (dy)^2)`.  The comparison is embedded on squared
distances, which keeps it rational and is equivalent for the nonnegative
thresholds the callers pass (squaring is monotone on nonnegatives). -/
def Pt.approx_eq (p q : ℚ × ℚ) (threshold : ℚ) : Bool :=
  decide ((p.1 - q.1) * (p.1 - q.1) + (p.2 - q.2) * (p.2 - q.2)
    ≤ threshold * threshold)

/-- `close_off_polygon` (geometry.rs lines 344-350): drop the last vertex if
it approximately repeats the first, then append the (new) first vertex;
`none` is the indexing panic on an empty list. -/
def close_off_polygon (pts : List (ℚ × ℚ)) : Option (List (ℚ × ℚ)) :=
  match pts.getLast?, pts.head? with
  | some lastPt, some headPt =>
    let pts1 := if Pt.approx_eq lastPt headPt (1/10) then pts.dropLast else pts
    match pts1.head? with
    | some h => some (pts1 ++ [h])
    | none => none
  | _, _ => none

/-- The `make::initial::Road` fields `deadend` reads and writes. -/
structure InitialRoad where
  src_i : IntersectionID
  dst_i : IntersectionID
  trimmed_center_pts : PolyLine

/-- BTreeMap lookup in the road table. -/
def roadsLookup (roads : List (Nat × InitialRoad)) (id : Nat) :
    Option InitialRoad :=
  (roads.find? (fun p => p.1 == id)).map (fun p => p.2)

/-- In-place update of one road (`roads.get_mut(&id)`). -/
def roadsUpdate (roads : List (Nat × InitialRoad)) (id : Nat) (r : InitialRoad) :
    List (Nat × InitialRoad) :=
  roads.map (fun p => if p.1 == id then (id, r) else p)

/-- `deadend` (geometry.rs lines 299-342).  `lines` entries are (road id,
pl_a, pl_b), the two shifted band polylines of the single incident road,
both oriented to end at the intersection (the tuple's unused last-segment
Line component is dropped).  Trims both bands back by
2 × DEGENERATE_INTERSECTION_HALF_LENGTH; when both trim points exist the
road's centerline is sliced by the same amount on the intersection side and
the 4-vertex polygon is emitted; otherwise the untrimmed degenerate triangle
is returned with the warning flag.  `none` is a panic (empty `lines`, a
missing road id, or an out-of-range `exact_slice`). -/
def deadend (roads : List (Nat × InitialRoad)) (i : IntersectionID)
    (lines : List (Nat × PolyLine × PolyLine)) :
    Option (List (Nat × InitialRoad) × List (ℚ × ℚ) × Bool) :=
  match lines.head? with
  | none => none
  | some (id, pl_a, pl_b) =>
    let pt1 := pl_a.reversed.safe_dist_along
      (DEGENERATE_INTERSECTION_HALF_LENGTH * 2)
    let pt2 := pl_b.reversed.safe_dist_along
      (DEGENERATE_INTERSECTION_HALF_LENGTH * 2)
    match pt1, pt2 with
    | some q1, some q2 =>
      match roadsLookup roads id with
      | none => none
      | some r =>
        let sliced :=
          if r.src_i = i then
            r.trimmed_center_pts.exact_slice
              (DEGENERATE_INTERSECTION_HALF_LENGTH * 2)
              r.trimmed_center_pts.length
          else
            r.trimmed_center_pts.exact_slice 0
              (r.trimmed_center_pts.length
                - DEGENERATE_INTERSECTION_HALF_LENGTH * 2)
        match sliced with
        | none => none
        | some tc =>
          match close_off_polygon [q1, q2, pl_b.last_pt, pl_a.last_pt] with
          | none => none
          | some poly =>
            some (roadsUpdate roads id { r with trimmed_center_pts := tc },
              poly, false)
    | _, _ => some (roads, [pl_a.last_pt, pl_b.last_pt, pl_a.last_pt], true)

/-- Concrete band polyline A for the C6 witness: the segment from (0,0) to
(20,0). -/
def c6plA : PolyLine := ⟨fun d => (d, 0), 20⟩

/-- Concrete band polyline B for the C6 witness: the segment from (0,2) to
(20,2). -/
def c6plB : PolyLine := ⟨fun d => (d, 2), 20⟩

/-- Concrete short band polyline for the C6 witness (length 4 < 10). -/
def c6plShort : PolyLine := ⟨fun d => (d, 0), 4⟩

/-- Concrete road table for the C6 witness: road 3 ends (dst) at
intersection 1 with a 20 m centerline. -/
def c6roads : List (Nat × InitialRoad) := [(3, ⟨7, 1, ⟨fun d => (d, 1), 20⟩⟩)]

/-! ## Road splitting (src/convert_osm/src/split_ways.rs) -/

/-- A raw map point (LonLat); embedded as a rational coordinate pair, with
the HashablePt2D key equality as plain equality. -/
abbrev RawPt := ℚ × ℚ

/-- The raw_data::Road fields `split_up_roads` reads and writes. -/
structure RawRoad where
  osm_way_id : Nat
  points : List RawPt
  osm_tags : List (String × String)
  i1 : Nat
  i2 : Nat
deriving DecidableEq, Repr

/-- Tag lookup (`osm_tags.get(key)`). -/
def tagsGet (tags : List (String × String)) (key : String) : Option String :=
  (tags.find? (fun p => p.1 == key)).map (fun p => p.2)

/-- `LonLat::center`: the centroid of a point list. -/
def LonLat.center (pts : List RawPt) : RawPt :=
  ((pts.map Prod.fst).sum / pts.length, (pts.map Prod.snd).sum / pts.length)

/-- The pt_to_intersection table (HashMap from point to stable intersection
id). -/
abbrev PtToI := List (RawPt × Nat)

/-- HashMap lookup. -/
def ptiLookup (m : PtToI) (pt : RawPt) : Option Nat :=
  (m.find? (fun p => p.1 == pt)).map (fun p => p.2)

/-- HashMap insert (overwrites an existing key). -/
def ptiInsert (m : PtToI) (pt : RawPt) (id : Nat) : PtToI :=
  m.filter (fun p => !(p.1 == pt)) ++ [(pt, id)]

/-- The roundabout pass of `split_up_roads` (lines 24-38): drop each
`junction=roundabout` way, assign it a fresh intersection id, map every one
of its points to that id, and record its centroid.  Returns the retained
roads, the next fresh id, the point table, and the roundabout centers. -/
def collectRoundabouts :
    List RawRoad → Nat → PtToI → List (Nat × RawPt) →
    List RawRoad × Nat × PtToI × List (Nat × RawPt)
  | [], nextId, pti, centers => ([], nextId, pti, centers)
  | r :: rest, nextId, pti, centers =>
    if tagsGet r.osm_tags r"junction" == some r"roundabout" then
      collectRoundabouts rest (nextId + 1)
        (r.points.foldl (fun acc pt => ptiInsert acc pt nextId) pti)
        (centers ++ [(nextId, LonLat.center r.points)])
    else
      let (rs, n, p, c) := collectRoundabouts rest nextId pti centers
      (r :: rs, n, p, c)

/-- One point of the intersection-finding pass (lines 41-58): bump the
point's count; when the count reaches 2 or the point is a way endpoint,
give it a fresh intersection id unless it already has one. -/
def findIntersectionsStep (st : PtToI × List (RawPt × Nat) × Nat)
    (pt : RawPt) (isEndpoint : Bool) : PtToI × List (RawPt × Nat) × Nat :=
  let (pti, counts, nextId) := st
  let count := ((ptiLookup counts pt).getD 0) + 1
  let counts1 := ptiInsert counts pt count
  if (count == 2 || isEndpoint) && !(ptiLookup pti pt).isSome then
    (ptiInsert pti pt nextId, counts1, nextId + 1)
  else
    (pti, counts1, nextId)

/-- The intersection-finding pass over one road's enumerated points. -/
def findIntersectionsRoad (r : RawRoad) (st : PtToI × List (RawPt × Nat) × Nat) :
    PtToI × List (RawPt × Nat) × Nat :=
  (r.points.enum).foldl
    (fun acc p =>
      findIntersectionsStep acc p.2
        (p.1 == 0 || p.1 == r.points.length - 1)) st

/-- The intersection-finding pass over all retained roads. -/
def findIntersections (roads : List RawRoad)
    (st : PtToI × List (RawPt × Nat) × Nat) :
    PtToI × List (RawPt × Nat) × Nat :=
  roads.foldl (fun acc r => findIntersectionsRoad r acc) st

/-- The inner splitting loop of `split_up_roads` (lines 94-116): push each
point onto the current segment; at each intersection point after the first
point, emit a road (panicking — `none` — when an interior point belongs to a
roundabout) and restart the segment from that point.  The final `assert!`
requires exactly one point to remain. -/
def splitRoadGo (pti : PtToI) (roundIds : List Nat) (orig : RawRoad) :
    List RawPt → List RawPt → Nat → List RawRoad → Option (List RawRoad)
  | [], cur, _i1, acc => if cur.length == 1 then some acc else none
  | pt :: rest, cur, i1, acc =>
    let cur1 := cur ++ [pt]
    if cur1.length > 1 then
      match ptiLookup pti pt with
      | some i2 =>
        if roundIds.contains i2 && !rest.isEmpty then none
        else
          splitRoadGo pti roundIds orig rest [pt] i2
            (acc ++ [{ orig with points := cur1, i1 := i1, i2 := i2 }])
      | none => splitRoadGo pti roundIds orig rest cur1 i1 acc
    else
      splitRoadGo pti roundIds orig rest cur1 i1 acc

/-- Splitting one retained road (lines 88-117): `none` when the road has no
points or its first point is not an intersection (indexing panics). -/
def splitRoad (pti : PtToI) (roundIds : List Nat) (orig : RawRoad) :
    Option (List RawRoad) :=
  match orig.points.head? with
  | none => none
  | some p0 =>
    match ptiLookup pti p0 with
    | none => none
    | some i1 => splitRoadGo pti roundIds orig orig.points [] i1 []

/-- Splitting every retained road in order, concatenating the pieces (their
StableRoadID is the emission index). -/
def splitAll (pti : PtToI) (roundIds : List Nat) :
    List RawRoad → Option (List RawRoad)
  | [] => some []
  | r :: rest =>
    match splitRoad pti roundIds r with
    | none => none
    | some out =>
      match splitAll pti roundIds rest with
      | none => none
      | some outs => some (out ++ outs)

/-- The output raw map (the buildings/areas pass-through and the constant
StopSign type and empty label of each intersection are omitted). -/
structure RawMap where
  roads : List RawRoad
  intersections : List (Nat × RawPt)
deriving DecidableEq, Repr

/-- Nat-keyed insert with overwrite, for the intersections table. -/
def natInsert (m : List (Nat × RawPt)) (k : Nat) (v : RawPt) :
    List (Nat × RawPt) :=
  m.filter (fun p => !(p.1 == k)) ++ [(k, v)]

/-- The point table `split_up_roads` ends up splitting against: roundabout
ids first, then the counted intersection points. -/
def splitPti (roads0 : List RawRoad) : PtToI :=
  let cr := collectRoundabouts roads0 0 [] []
  (findIntersections cr.1 (cr.2.2.1, [], cr.2.1)).1

/-- `split_up_roads` (split_ways.rs lines 6-122), dropping the timer and the
buildings/areas pass-through.  `none` is a panic: a roundabout hit in the
interior of a way, a pointless road, or the final `assert!`. -/
def split_up_roads (roads0 : List RawRoad) : Option RawMap :=
  let cr := collectRoundabouts roads0 0 [] []
  let centers := cr.2.2.2
  let pti := splitPti roads0
  let inters0 := pti.foldl (fun acc p => natInsert acc p.2 p.1) []
  let inters := centers.foldl (fun acc c => natInsert acc c.1 c.2) inters0
  match splitAll pti (centers.map (fun c => c.1)) cr.1 with
  | none => none
  | some roads => some ⟨roads, inters⟩

/-- The invariant C10 claims of every output road, relative to the point
table: at least two points, `i1`/`i2` are exactly the intersections of the
first/last point, and no interior point is an intersection point. -/
def roadOk (pti : PtToI) (r : RawRoad) : Prop :=
  2 ≤ r.points.length ∧
  r.points.head?.bind (fun pt => ptiLookup pti pt) = some r.i1 ∧
  r.points.getLast?.bind (fun pt => ptiLookup pti pt) = some r.i2 ∧
  ∀ pt ∈ (r.points.drop 1).dropLast, ptiLookup pti pt = none

/-- Concrete input for the C10 witness: two ways that cross at (1,0). -/
def c10roads : List RawRoad :=
  [⟨100, [(0, 0), (1, 0), (2, 0)], [], 0, 0⟩,
   ⟨101, [(1, 0), (1, 1)], [], 0, 0⟩]

/-- The map `split_up_roads` produces on `c10roads`: the first way splits at
the crossing into two edges. -/
def c10map : RawMap :=
  ⟨[⟨100, [(0, 0), (1, 0)], [], 0, 2⟩,
    ⟨100, [(1, 0), (2, 0)], [], 2, 1⟩,
    ⟨101, [(1, 0), (1, 1)], [], 2, 3⟩],
   [(0, (0, 0)), (1, (2, 0)), (2, (1, 0)), (3, (1, 1))]⟩

/-! ## Theorems about the intersection arbiter -/

theorem ArbMap.geomCross_symm (m : ArbMap) (t1 t2 : TurnID) :
    m.geomCross t1 t2 = m.geomCross t2 t1 := by
  simp [ArbMap.geomCross, Bool.or_comm]

theorem ArbMap.conflicts_with_symm (m : ArbMap) (t1 t2 : TurnID) :
    m.conflicts_with t1 t2 = m.conflicts_with t2 t1 := by
  unfold ArbMap.conflicts_with
  rw [m.geomCross_symm t1 t2]
  by_cases h1 : (m.turnType t1).isLaneChange = true <;>
    by_cases h2 : (m.turnType t2).isLaneChange = true <;>
      by_cases h3 : m.turnType t1 = TurnType.SharedSidewalkCorner <;>
        by_cases h4 : m.turnType t2 = TurnType.SharedSidewalkCorner <;>
          simp [h1, h2, h3, h4, BEq.comm, Bool.and_comm, Bool.and_left_comm,
            Bool.and_assoc]

theorem mem_acceptedInsert {a : List Request} {req r : Request}
    (h : r ∈ acceptedInsert a req) : r ∈ a ∨ r = req := by
  unfold acceptedInsert at h
  split at h
  · exact Or.inl h
  · rcases List.mem_cons.mp h with h | h
    · exact Or.inr h
    · exact Or.inl h

/-- A non-panicking `maybe_start_turn` either leaves the accepted set alone or
inserts the new request after the `assert!` has checked that it conflicts with
no accepted request. -/
theorem maybe_start_turn_accepted {m : ArbMap} {ctrl : Control} {s : State}
    {sched : List (ℚ × AgentID)} {agent : AgentID} {turn : TurnID} {now : ℚ}
    {granted : Bool} {s' : State} {sched' : List (ℚ × AgentID)}
    (hstep : maybe_start_turn m ctrl s sched agent turn now = some (granted, s', sched')) :
    s'.accepted = s.accepted ∨
      (s'.accepted = acceptedInsert s.accepted ⟨agent, turn⟩ ∧
        s.any_accepted_conflict_with turn m = false) := by
  simp only [maybe_start_turn] at hstep
  set req : Request := ⟨agent, turn⟩ with hreq
  set s1 : State := { s with waiting := waitingInsert s.waiting req now } with hs1
  have hacc1 : s1.accepted = s.accepted := rfl
  have hconf1 : s1.any_accepted_conflict_with turn m
      = s.any_accepted_conflict_with turn m := rfl
  rcases hpol : (match ctrl with
    | .trafficSignal signal => some (s1.traffic_signal_policy signal req now m, sched)
    | .stopSign sign => s1.stop_sign_policy sign req now m sched
    | .freeform => some (s1.freeform_policy req m, sched)) with _ | ⟨allowed, sch⟩
  · rw [hpol] at hstep
    simp at hstep
  · rw [hpol] at hstep
    simp only [] at hstep
    cases allowed
    · simp only [if_neg (by decide : ¬(false = true))] at hstep
      have : s' = s1 := by
        injection hstep with h
        injection h with h1 h2
        injection h2 with h3 h4
        exact h3.symm
      left
      rw [this]
    · simp only [if_pos rfl] at hstep
      rcases hc : s1.any_accepted_conflict_with turn m with _ | _
      · rw [hc] at hstep
        simp only [if_neg (by decide : ¬(false = true))] at hstep
        rcases hl : (waitingLookup s1.waiting req).isSome with _ | _
        · rw [hl] at hstep
          simp at hstep
        · rw [hl] at hstep
          simp only [if_pos rfl] at hstep
          right
          constructor
          · injection hstep with h
            injection h with h1 h2
            injection h2 with h3 h4
            rw [← h3]
          · rw [← hconf1]
            exact hc
      · rw [hc] at hstep
        simp at hstep

/-- A non-panicking `turn_finished` only removes from the accepted set. -/
theorem turn_finished_accepted {s : State} {sched : List (ℚ × AgentID)}
    {agent : AgentID} {turn : TurnID} {now : ℚ} {s' : State}
    {sched' : List (ℚ × AgentID)}
    (hstep : turn_finished s sched agent turn now = some (s', sched')) :
    ∀ r ∈ s'.accepted, r ∈ s.accepted := by
  simp only [turn_finished] at hstep
  split at hstep
  · injection hstep with h
    injection h with h1 h2
    intro r hr
    rw [← h1] at hr
    exact (List.mem_filter.mp hr).1
  · simp at hstep

/-- C1: for every intersection state reachable by any sequence of
`maybe_start_turn` and `turn_finished` calls, no two distinct requests in the
accepted set have conflicting turns (conflict being `Turn::conflicts_with`). -/
theorem arbiter_accepted_never_conflicts (m : ArbMap) (ctrl : Control)
    (s : State) (h : Reach m ctrl s) : acceptedOk m s := by
  induction h with
  | init =>
    intro r1 h1 r2 h2 hne
    simp at h1
  | start s sched agent turn now granted s' sched' hreach hstep ih =>
    rcases maybe_start_turn_accepted hstep with hsame | ⟨hins, hnoconf⟩
    · intro r1 h1 r2 h2 hne
      rw [hsame] at h1 h2
      exact ih r1 h1 r2 h2 hne
    · have hnoc : ∀ r ∈ s.accepted, m.conflicts_with r.turn turn = false := by
        intro r hr
        have := List.any_eq_false.mp ((by
          simpa [State.any_accepted_conflict_with] using hnoconf :
            s.accepted.any (fun req => m.conflicts_with req.turn turn) = false)) r hr
        simpa using this
      intro r1 h1 r2 h2 hne
      rw [hins] at h1 h2
      rcases mem_acceptedInsert h1 with h1' | h1' <;>
        rcases mem_acceptedInsert h2 with h2' | h2'
      · exact ih r1 h1' r2 h2' hne
      · rw [h2']
        exact hnoc r1 h1'
      · rw [h1']
        rw [m.conflicts_with_symm]
        exact hnoc r2 h2'
      · exact absurd (h1'.trans h2'.symm) hne
  | finish s sched agent turn now s' sched' hreach hstep ih =>
    intro r1 h1 r2 h2 hne
    exact ih r1 (turn_finished_accepted hstep r1 h1)
      r2 (turn_finished_accepted hstep r2 h2) hne

/-- Witness for C1: a concrete reachable state — one granted stop-sign turn —
satisfies the invariant. -/
theorem arbiter_accepted_never_conflicts_witness :
    acceptedOk ⟨fun _ => TurnType.Straight, []⟩
      ⟨[⟨AgentID.car 1, ⟨0, 1, 2⟩⟩], []⟩ := by
  apply arbiter_accepted_never_conflicts ⟨fun _ => TurnType.Straight, []⟩ Control.freeform
  have h0 : Reach ⟨fun _ => TurnType.Straight, []⟩ Control.freeform ⟨[], []⟩ :=
    Reach.init
  exact Reach.start ⟨[], []⟩ [] (AgentID.car 1) ⟨0, 1, 2⟩ 0 true
    ⟨[⟨AgentID.car 1, ⟨0, 1, 2⟩⟩], []⟩ [] h0 (by decide)

theorem any_accepted_conflict_with_eq_false {s : State} {t : TurnID} {m : ArbMap} :
    s.any_accepted_conflict_with t m = false ↔
      ∀ r ∈ s.accepted, m.conflicts_with r.turn t = false := by
  simp [State.any_accepted_conflict_with, List.any_eq_false]

/-- Unfolding of `stop_sign_policy` once the request's enqueue time is known
and its priority is not Banned. -/
theorem stop_sign_policy_eq (s1 : State) (sign : ControlStopSign) (req : Request)
    (now : ℚ) (m : ArbMap) (sched : List (ℚ × AgentID)) (enq : ℚ)
    (hBan : sign.turns req.turn ≠ TurnPriority.Banned)
    (henq : waitingLookup s1.waiting req = some enq) :
    s1.stop_sign_policy sign req now m sched =
      (if s1.any_accepted_conflict_with req.turn m then some (false, sched)
       else if sign.turns req.turn = TurnPriority.Stop ∧ now < enq + WAIT_AT_STOP_SIGN then
         some (false, sched ++ [(enq + WAIT_AT_STOP_SIGN, req.agent)])
       else if s1.waiting.any (fun p =>
          ((sign.turns p.1.turn).rank > (sign.turns req.turn).rank : Bool)
            || ((sign.turns p.1.turn == sign.turns req.turn) && decide (p.2 < enq))) then
         some (false, sched)
       else some (true, sched)) := by
  unfold State.stop_sign_policy
  rw [henq]
  simp [hBan]

/-- C2: at a stop-sign intersection (candidate not Banned, `enq` the
request's first-enqueue time after it is recorded), `maybe_start_turn`
returns without panicking; it grants iff (a) no accepted request's turn
conflicts with the candidate, (b) a Stop-ranked candidate has waited at
least `WAIT_AT_STOP_SIGN` since `enq`, (c) no waiting request has a turn of
strictly higher rank and (d) no waiting request of equal rank has a strictly
earlier enqueue time; and when (b) alone fails a wakeup for the agent is
pushed at `enq + WAIT_AT_STOP_SIGN`. -/
theorem stop_sign_grant_characterization
    (m : ArbMap) (sign : ControlStopSign) (s : State)
    (sched : List (ℚ × AgentID)) (agent : AgentID) (turn : TurnID) (now : ℚ)
    (enq : ℚ)
    (hBan : sign.turns turn ≠ TurnPriority.Banned)
    (henq : waitingLookup (waitingInsert s.waiting ⟨agent, turn⟩ now) ⟨agent, turn⟩
      = some enq) :
    ∃ res, maybe_start_turn m (Control.stopSign sign) s sched agent turn now
        = some res ∧
      (res.1 = true ↔
        ((∀ r ∈ s.accepted, m.conflicts_with r.turn turn = false) ∧
          (sign.turns turn = TurnPriority.Stop → enq + WAIT_AT_STOP_SIGN ≤ now) ∧
          (∀ p ∈ waitingInsert s.waiting ⟨agent, turn⟩ now,
            (sign.turns p.1.turn).rank ≤ (sign.turns turn).rank) ∧
          (∀ p ∈ waitingInsert s.waiting ⟨agent, turn⟩ now,
            sign.turns p.1.turn = sign.turns turn → ¬ p.2 < enq))) ∧
      (((∀ r ∈ s.accepted, m.conflicts_with r.turn turn = false) ∧
          sign.turns turn = TurnPriority.Stop ∧ now < enq + WAIT_AT_STOP_SIGN ∧
          (∀ p ∈ waitingInsert s.waiting ⟨agent, turn⟩ now,
            (sign.turns p.1.turn).rank ≤ (sign.turns turn).rank) ∧
          (∀ p ∈ waitingInsert s.waiting ⟨agent, turn⟩ now,
            sign.turns p.1.turn = sign.turns turn → ¬ p.2 < enq)) →
        res.2.2 = sched ++ [(enq + WAIT_AT_STOP_SIGN, agent)]) := by
  set req : Request := ⟨agent, turn⟩ with hreq
  set w : List (Request × ℚ) := waitingInsert s.waiting req now with hw
  set s1 : State := { s with waiting := w } with hs1
  have hconf1 : ∀ t, s1.any_accepted_conflict_with t m
      = s.any_accepted_conflict_with t m := fun _ => rfl
  have hmst : maybe_start_turn m (Control.stopSign sign) s sched agent turn now
      = (match s1.stop_sign_policy sign req now m sched with
        | none => none
        | some (allowed, sched') =>
          if allowed then
            if s1.any_accepted_conflict_with turn m then none
            else if (waitingLookup s1.waiting req).isSome then
              some (true,
                { accepted := acceptedInsert s1.accepted req,
                  waiting := waitingRemove s1.waiting req }, sched')
            else none
          else some (false, s1, sched')) := rfl
  have hpol := stop_sign_policy_eq s1 sign req now m sched enq hBan henq
  by_cases hconf : s.any_accepted_conflict_with turn m = true
  · refine ⟨(false, s1, sched), ?_, ?_, ?_⟩
    · rw [hmst, hpol]
      simp [hconf1, hconf]
    · simp only [Bool.false_eq_true, false_iff]
      intro ⟨ha, _, _, _⟩
      rw [any_accepted_conflict_with_eq_false.mpr ha] at hconf
      exact absurd hconf (by decide)
    · intro ⟨ha, _⟩
      rw [any_accepted_conflict_with_eq_false.mpr ha] at hconf
      exact absurd hconf (by decide)
  · have hconfF : s.any_accepted_conflict_with turn m = false :=
      Bool.eq_false_iff.mpr hconf
    have haF : ∀ r ∈ s.accepted, m.conflicts_with r.turn turn = false :=
      any_accepted_conflict_with_eq_false.mp hconfF
    by_cases hb : sign.turns turn = TurnPriority.Stop ∧ now < enq + WAIT_AT_STOP_SIGN
    · refine ⟨(false, s1, sched ++ [(enq + WAIT_AT_STOP_SIGN, agent)]), ?_, ?_, ?_⟩
      · rw [hmst, hpol]
        simp [hconf1, hconfF, hb]
      · simp only [Bool.false_eq_true, false_iff]
        intro ⟨_, hb', _, _⟩
        exact absurd (hb' hb.1) (not_le.mpr hb.2)
      · intro _
        rfl
    · by_cases hcd : s1.waiting.any (fun p =>
          ((sign.turns p.1.turn).rank > (sign.turns turn).rank : Bool)
            || ((sign.turns p.1.turn == sign.turns turn) && decide (p.2 < enq))) = true
      · refine ⟨(false, s1, sched), ?_, ?_, ?_⟩
        · rw [hmst, hpol]
          simp [hconf1, hconfF, hb, hcd]
        · simp only [Bool.false_eq_true, false_iff]
          intro ⟨_, _, hc, hd⟩
          rcases List.any_eq_true.mp hcd with ⟨p, hp, hpval⟩
          simp only [Bool.or_eq_true, Bool.and_eq_true, decide_eq_true_eq,
            beq_iff_eq] at hpval
          rcases hpval with hgt | ⟨heq, hlt⟩
          · exact absurd (hc p hp) (not_le.mpr hgt)
          · exact absurd hlt (hd p hp heq)
        · intro ⟨_, hstop, hlt, _⟩
          exact absurd ⟨hstop, hlt⟩ hb
      · have hcdF := Bool.eq_false_iff.mpr hcd
        refine ⟨(true,
          { accepted := acceptedInsert s1.accepted req,
            waiting := waitingRemove s1.waiting req }, sched), ?_, ?_, ?_⟩
        · rw [hmst, hpol]
          simp [hconf1, hconfF, hb, hcdF, henq]
        · simp only [true_iff]
          refine ⟨haF, ?_, ?_, ?_⟩
          · intro hstop
            by_contra hlt
            exact hb ⟨hstop, not_le.mp hlt⟩
          · intro p hp
            have := List.any_eq_false.mp hcdF p hp
            simp only [Bool.or_eq_true, Bool.and_eq_true, decide_eq_true_eq,
              not_or, not_and, beq_iff_eq] at this
            exact not_lt.mp this.1
          · intro p hp hpe
            have := List.any_eq_false.mp hcdF p hp
            simp only [Bool.or_eq_true, Bool.and_eq_true, decide_eq_true_eq,
              not_or, not_and, beq_iff_eq] at this
            exact this.2 hpe
        · intro ⟨_, hstop, hlt, _⟩
          exact absurd ⟨hstop, hlt⟩ hb

/-- Witness for C2 at a concrete input: a lone Stop-ranked car arriving at
time 0 is denied and gets a wakeup at 0.5 s. -/
theorem stop_sign_grant_characterization_witness :
    ∃ res, maybe_start_turn ⟨fun _ => TurnType.Straight, []⟩
        (Control.stopSign ⟨fun _ => TurnPriority.Stop⟩) ⟨[], []⟩ []
        (AgentID.car 0) ⟨0, 1, 2⟩ 0 = some res ∧
      (res.1 = true ↔
        ((∀ r ∈ (⟨[], []⟩ : State).accepted,
            ArbMap.conflicts_with ⟨fun _ => TurnType.Straight, []⟩ r.turn ⟨0, 1, 2⟩
              = false) ∧
          ((fun _ => TurnPriority.Stop) (⟨0, 1, 2⟩ : TurnID) = TurnPriority.Stop →
            0 + WAIT_AT_STOP_SIGN ≤ 0) ∧
          (∀ p ∈ waitingInsert [] ⟨AgentID.car 0, ⟨0, 1, 2⟩⟩ 0,
            (TurnPriority.Stop).rank ≤ (TurnPriority.Stop).rank) ∧
          (∀ p ∈ waitingInsert [] ⟨AgentID.car 0, ⟨0, 1, 2⟩⟩ 0,
            TurnPriority.Stop = TurnPriority.Stop → ¬ p.2 < 0))) ∧
      (((∀ r ∈ (⟨[], []⟩ : State).accepted,
            ArbMap.conflicts_with ⟨fun _ => TurnType.Straight, []⟩ r.turn ⟨0, 1, 2⟩
              = false) ∧
          (fun _ => TurnPriority.Stop) (⟨0, 1, 2⟩ : TurnID) = TurnPriority.Stop ∧
          (0 : ℚ) < 0 + WAIT_AT_STOP_SIGN ∧
          (∀ p ∈ waitingInsert [] ⟨AgentID.car 0, ⟨0, 1, 2⟩⟩ 0,
            (TurnPriority.Stop).rank ≤ (TurnPriority.Stop).rank) ∧
          (∀ p ∈ waitingInsert [] ⟨AgentID.car 0, ⟨0, 1, 2⟩⟩ 0,
            TurnPriority.Stop = TurnPriority.Stop → ¬ p.2 < 0)) →
        res.2.2 = [] ++ [(0 + WAIT_AT_STOP_SIGN, AgentID.car 0)]) :=
  stop_sign_grant_characterization ⟨fun _ => TurnType.Straight, []⟩
    ⟨fun _ => TurnPriority.Stop⟩ ⟨[], []⟩ [] (AgentID.car 0) ⟨0, 1, 2⟩ 0 0
    (by decide) (by decide)

/-- C3: at a traffic-signal intersection, while some accepted request's turn
is Banned in the current cycle (overrun), or while some accepted request's
turn conflicts with the candidate, `maybe_start_turn` denies the request
(returns false, leaving the request waiting). -/
theorem traffic_signal_overrun_denies (m : ArbMap)
    (signal : ControlTrafficSignal) (s : State) (sched : List (ℚ × AgentID))
    (agent : AgentID) (turn : TurnID) (now : ℚ)
    (h : (∃ r ∈ s.accepted, signal.cycleAt now r.turn = TurnPriority.Banned) ∨
      (∃ r ∈ s.accepted, m.conflicts_with r.turn turn = true)) :
    maybe_start_turn m (Control.trafficSignal signal) s sched agent turn now =
      some (false,
        { s with waiting := waitingInsert s.waiting ⟨agent, turn⟩ now }, sched) := by
  set req : Request := ⟨agent, turn⟩ with hreq
  set s1 : State := { s with waiting := waitingInsert s.waiting req now } with hs1
  have hfalse : s1.traffic_signal_policy signal req now m = false := by
    rcases h with ⟨r, hr, hban⟩ | ⟨r, hr, hc⟩
    · have hA : (s1.accepted.any fun q => signal.cycleAt now q.turn == TurnPriority.Banned)
          = true := List.any_eq_true.mpr ⟨r, hr, by simp [hban]⟩
      simp [State.traffic_signal_policy, hA]
    · have hconf : s1.any_accepted_conflict_with req.turn m = true :=
        List.any_eq_true.mpr ⟨r, hr, hc⟩
      simp [State.traffic_signal_policy, hconf]
  have hmst : maybe_start_turn m (Control.trafficSignal signal) s sched agent turn now
      = (if s1.traffic_signal_policy signal req now m then
          (if s1.any_accepted_conflict_with turn m then none
           else if (waitingLookup s1.waiting req).isSome then
             some (true,
               { accepted := acceptedInsert s1.accepted req,
                 waiting := waitingRemove s1.waiting req }, sched)
           else none)
         else some (false, s1, sched)) := rfl
  rw [hmst, hfalse, if_neg (by simp)]

/-- Witness for C3: with one accepted turn Banned by the current cycle, a
concrete new request is denied. -/
theorem traffic_signal_overrun_denies_witness :
    maybe_start_turn ⟨fun _ => TurnType.Straight, []⟩
      (Control.trafficSignal ⟨fun _ _ => TurnPriority.Banned⟩)
      ⟨[⟨AgentID.car 0, ⟨0, 1, 2⟩⟩], []⟩ [] (AgentID.car 1) ⟨0, 3, 4⟩ 7 =
      some (false,
        { accepted := [⟨AgentID.car 0, ⟨0, 1, 2⟩⟩],
          waiting := waitingInsert [] ⟨AgentID.car 1, ⟨0, 3, 4⟩⟩ 7 }, []) :=
  traffic_signal_overrun_denies ⟨fun _ => TurnType.Straight, []⟩
    ⟨fun _ _ => TurnPriority.Banned⟩ ⟨[⟨AgentID.car 0, ⟨0, 1, 2⟩⟩], []⟩ []
    (AgentID.car 1) ⟨0, 3, 4⟩ 7
    (Or.inl ⟨⟨AgentID.car 0, ⟨0, 1, 2⟩⟩, by decide, rfl⟩)

/-- Counterexample to C9: a request whose turn is Banned by the stop sign
does not panic when some accepted request conflicts with it — the conflict
check precedes the assert and the call returns false. -/
theorem stop_sign_banned_no_panic_counterexample :
    c9sign.turns ⟨0, 3, 4⟩ = TurnPriority.Banned ∧
    maybe_start_turn c9map (Control.stopSign c9sign)
        ⟨[⟨AgentID.car 0, ⟨0, 1, 2⟩⟩], []⟩ [] (AgentID.car 1) ⟨0, 3, 4⟩ 0 =
      some (false,
        { accepted := [⟨AgentID.car 0, ⟨0, 1, 2⟩⟩],
          waiting := [(⟨AgentID.car 1, ⟨0, 3, 4⟩⟩, 0)] }, []) := by
  constructor
  · rfl
  · decide

/-- C9 (amended): a Banned-turn request panics the stop-sign policy
(`assert!(our_priority != TurnPriority::Banned)`) provided no accepted
request's turn conflicts with it; with a conflicting accepted request the
call returns false instead. -/
theorem stop_sign_banned_asserts (m : ArbMap) (sign : ControlStopSign)
    (s : State) (sched : List (ℚ × AgentID)) (agent : AgentID) (turn : TurnID)
    (now : ℚ)
    (hnoconf : s.any_accepted_conflict_with turn m = false)
    (hban : sign.turns turn = TurnPriority.Banned) :
    maybe_start_turn m (Control.stopSign sign) s sched agent turn now = none := by
  set req : Request := ⟨agent, turn⟩ with hreq
  set s1 : State := { s with waiting := waitingInsert s.waiting req now } with hs1
  have hpol : s1.stop_sign_policy sign req now m sched = none := by
    unfold State.stop_sign_policy
    rw [if_neg (by
      have : s1.any_accepted_conflict_with req.turn m
          = s.any_accepted_conflict_with turn m := rfl
      rw [this, hnoconf]
      simp)]
    simp [hban]
  have hmst : maybe_start_turn m (Control.stopSign sign) s sched agent turn now
      = (match s1.stop_sign_policy sign req now m sched with
        | none => none
        | some (allowed, sched') =>
          if allowed then
            if s1.any_accepted_conflict_with turn m then none
            else if (waitingLookup s1.waiting req).isSome then
              some (true,
                { accepted := acceptedInsert s1.accepted req,
                  waiting := waitingRemove s1.waiting req }, sched')
            else none
          else some (false, s1, sched')) := rfl
  rw [hmst, hpol]

/-- Witness for the amended C9: a Banned request at an empty intersection
panics. -/
theorem stop_sign_banned_asserts_witness :
    maybe_start_turn c9map (Control.stopSign c9sign) ⟨[], []⟩ []
      (AgentID.car 1) ⟨0, 3, 4⟩ 0 = none :=
  stop_sign_banned_asserts c9map c9sign ⟨[], []⟩ [] (AgentID.car 1) ⟨0, 3, 4⟩ 0
    (by decide) (by decide)

/-! ## Theorems about the trip manager -/

/-- Counterexample to C4: when the driving-portion pathfinding fails, the
trip's remaining legs are NOT discarded — the Drive leg stays on the trip
record (the handler only decrements `unfinished_trips` and emits the
message). -/
theorem trip_abort_keeps_legs_counterexample :
    (TripManager.ped_reached_parking_spot c4env c4tm 10 3 0).map
        (fun r => (r.1.trips.map Trip.legs, r.1.unfinished_trips, r.2.2))
      = some ([[TripLeg.drive ⟨5, VehicleType.car⟩ (DrivingGoal.parkNear 9)]], 0,
          [Msg.abortNoPathCar]) ∧
    [TripLeg.drive ⟨5, VehicleType.car⟩ (DrivingGoal.parkNear 9)]
      ≠ ([] : List TripLeg) := by
  constructor
  · decide
  · decide

/-- C4 (amended): whenever a trip's intermediate pathfinding — driving
(ped_reached_parking_spot), biking (ped_ready_to_bike) or walking
(car_reached_parking_spot via spawn_ped) — fails, the handler returns without
panicking: the completed Walk/Drive leg is popped but the remaining legs stay
on the (now inactive) trip record, `unfinished_trips` decrements by one, no
command is scheduled, and the abort message is emitted. -/
theorem trips_abort_on_pathfinding_failure :
    (∀ (env : TripsEnv) (tm : TripManager) (time : ℚ) (ped : PedestrianID)
        (spot : ParkingSpot) (idx : Nat) (atm : List (AgentID × Nat))
        (trip : Trip) (speed : ℚ) (vehicle : Vehicle) (drive_to : DrivingGoal)
        (rest : List TripLeg) (pc : ParkedCar),
      0 < tm.unfinished_trips →
      assocRemove tm.active_trip_mode (AgentID.pedestrian ped) = some (idx, atm) →
      tm.trips[idx]? = some trip →
      trip.legs = TripLeg.walk ped speed (env.parking_spot spot)
          :: TripLeg.drive vehicle drive_to :: rest →
      env.get_car_at_spot spot = some pc →
      pc.vehicle.id = vehicle.id →
      env.pathfind ⟨pc.driving_pos, env.goal_pos drive_to, false, false⟩ = none →
      TripManager.ped_reached_parking_spot env tm time ped spot =
          some ({ tm with
                    events := tm.events ++ [Event.pedReachedParkingSpot ped spot]
                    active_trip_mode := atm
                    trips := tm.trips.set idx
                      { trip with legs := TripLeg.drive vehicle drive_to :: rest }
                    unfinished_trips := tm.unfinished_trips - 1 },
            [], [Msg.abortNoPathCar]) ∧
        tm.unfinished_trips - 1 + 1 = tm.unfinished_trips) ∧
    (∀ (env : TripsEnv) (tm : TripManager) (time : ℚ) (ped : PedestrianID)
        (spot : SidewalkSpot) (idx : Nat) (atm : List (AgentID × Nat))
        (trip : Trip) (speed : ℚ) (vehicle : Vehicle) (drive_to : DrivingGoal)
        (rest : List TripLeg) (driving_pos : Position),
      0 < tm.unfinished_trips →
      assocRemove tm.active_trip_mode (AgentID.pedestrian ped) = some (idx, atm) →
      tm.trips[idx]? = some trip →
      trip.legs = TripLeg.walk ped speed spot
          :: TripLeg.drive vehicle drive_to :: rest →
      spot.connection = SidewalkPOI.bikeRack driving_pos →
      env.pathfind ⟨driving_pos, env.goal_pos drive_to, false, true⟩ = none →
      TripManager.ped_ready_to_bike env tm time ped spot =
          some ({ tm with
                    active_trip_mode := atm
                    trips := tm.trips.set idx
                      { trip with legs := TripLeg.drive vehicle drive_to :: rest }
                    unfinished_trips := tm.unfinished_trips - 1 },
            [], [Msg.abortNoPathBike]) ∧
        tm.unfinished_trips - 1 + 1 = tm.unfinished_trips) ∧
    (∀ (env : TripsEnv) (tm : TripManager) (time : ℚ) (car : CarID)
        (spot : ParkingSpot) (idx : Nat) (atm : List (AgentID × Nat))
        (trip : Trip) (b : BuildingID) (vehicle : Vehicle) (ped : PedestrianID)
        (speed : ℚ) (walk_to : SidewalkSpot) (rest : List TripLeg),
      0 < tm.unfinished_trips →
      assocRemove tm.active_trip_mode (AgentID.car car) = some (idx, atm) →
      tm.trips[idx]? = some trip →
      trip.legs = TripLeg.drive vehicle (DrivingGoal.parkNear b)
          :: TripLeg.walk ped speed walk_to :: rest →
      car = vehicle.id →
      env.pathfind ⟨(env.parking_spot spot).sidewalk_pos, walk_to.sidewalk_pos,
          false, false⟩ = none →
      TripManager.car_reached_parking_spot env tm time car spot =
          some ({ tm with
                    events := tm.events ++ [Event.carReachedParkingSpot car spot]
                    active_trip_mode := atm
                    trips := tm.trips.set idx
                      { trip with legs := TripLeg.walk ped speed walk_to :: rest }
                    unfinished_trips := tm.unfinished_trips - 1 },
            [], [Msg.abortNoPathWalk]) ∧
        tm.unfinished_trips - 1 + 1 = tm.unfinished_trips) := by
  refine ⟨?_, ?_, ?_⟩
  · intro env tm time ped spot idx atm trip speed vehicle drive_to rest pc
      hpos ha hg hlegs hcar hid hpf
    refine ⟨?_, Nat.succ_pred_eq_of_pos hpos⟩
    simp [TripManager.ped_reached_parking_spot, Trip.assert_walking_leg,
      ha, hg, hlegs, hcar, hid, hpf]
  · intro env tm time ped spot idx atm trip speed vehicle drive_to rest
      driving_pos hpos ha hg hlegs hconn hpf
    refine ⟨?_, Nat.succ_pred_eq_of_pos hpos⟩
    simp [TripManager.ped_ready_to_bike, Trip.assert_walking_leg,
      ha, hg, hlegs, hconn, hpf]
  · intro env tm time car spot idx atm trip b vehicle ped speed walk_to rest
      hpos ha hg hlegs hid hpf
    refine ⟨?_, Nat.succ_pred_eq_of_pos hpos⟩
    subst hid
    simp [TripManager.car_reached_parking_spot, Trip.spawn_ped,
      ha, hg, hlegs, hpf]

/-- Witness for the amended C4: the three abort scenarios at concrete
inputs. -/
theorem trips_abort_on_pathfinding_failure_witness :
    TripManager.ped_reached_parking_spot c4env c4tm 10 3 0 =
        some ({ c4tm with
                  events := [Event.pedReachedParkingSpot 3 0]
                  active_trip_mode := []
                  trips := c4tm.trips.set 0
                    ⟨0, 0, none,
                      [TripLeg.drive ⟨5, VehicleType.car⟩ (DrivingGoal.parkNear 9)],
                      TripMode.Drive⟩
                  unfinished_trips := 0 },
          [], [Msg.abortNoPathCar]) ∧
    TripManager.ped_ready_to_bike c4env c4tmBike 10 3
        ⟨⟨0, 0⟩, SidewalkPOI.bikeRack ⟨4, 0⟩⟩ =
        some ({ c4tmBike with
                  active_trip_mode := []
                  trips := c4tmBike.trips.set 0
                    ⟨0, 0, none,
                      [TripLeg.drive ⟨6, VehicleType.bike⟩ (DrivingGoal.parkNear 9)],
                      TripMode.Bike⟩
                  unfinished_trips := 0 },
          [], [Msg.abortNoPathBike]) ∧
    TripManager.car_reached_parking_spot c4env c4tmWalk 10 5 0 =
        some ({ c4tmWalk with
                  events := [Event.carReachedParkingSpot 5 0]
                  active_trip_mode := []
                  trips := c4tmWalk.trips.set 0
                    ⟨0, 0, none,
                      [TripLeg.walk 3 1 ⟨⟨7, 0⟩, SidewalkPOI.building 9⟩],
                      TripMode.Drive⟩
                  unfinished_trips := 0 },
          [], [Msg.abortNoPathWalk]) := by
  refine ⟨?_, ?_, ?_⟩
  · exact (trips_abort_on_pathfinding_failure.1 c4env c4tm 10 3 0 0 []
      ⟨0, 0, none,
        [TripLeg.walk 3 1 ⟨⟨0, 0⟩, SidewalkPOI.parkingSpot 0⟩,
         TripLeg.drive ⟨5, VehicleType.car⟩ (DrivingGoal.parkNear 9)],
        TripMode.Drive⟩
      1 ⟨5, VehicleType.car⟩ (DrivingGoal.parkNear 9) []
      ⟨⟨5, VehicleType.car⟩, ⟨1, 0⟩⟩
      (by decide) (by decide) (by decide) (by decide) (by decide) (by decide)
      (by decide)).1
  · exact (trips_abort_on_pathfinding_failure.2.1 c4env c4tmBike 10 3
      ⟨⟨0, 0⟩, SidewalkPOI.bikeRack ⟨4, 0⟩⟩ 0 []
      ⟨0, 0, none,
        [TripLeg.walk 3 1 ⟨⟨0, 0⟩, SidewalkPOI.bikeRack ⟨4, 0⟩⟩,
         TripLeg.drive ⟨6, VehicleType.bike⟩ (DrivingGoal.parkNear 9)],
        TripMode.Bike⟩
      1 ⟨6, VehicleType.bike⟩ (DrivingGoal.parkNear 9) [] ⟨4, 0⟩
      (by decide) (by decide) (by decide) (by decide) (by decide)
      (by decide)).1
  · exact (trips_abort_on_pathfinding_failure.2.2 c4env c4tmWalk 10 5 0 0 []
      ⟨0, 0, none,
        [TripLeg.drive ⟨5, VehicleType.car⟩ (DrivingGoal.parkNear 9),
         TripLeg.walk 3 1 ⟨⟨7, 0⟩, SidewalkPOI.building 9⟩],
        TripMode.Drive⟩
      9 ⟨5, VehicleType.car⟩ 3 1 ⟨⟨7, 0⟩, SidewalkPOI.building 9⟩ []
      (by decide) (by decide) (by decide) (by decide) (by decide)
      (by decide)).1

/-- Counterexample to C7: `car_or_bike_reached_border` with a head leg that
is not a Drive-to-Border (here Drive-to-ParkNear) does NOT fail a fatal
assertion — it aborts the trip (message, decrement) and returns. -/
theorem trip_leg_mismatch_no_assert_counterexample :
    TripManager.car_or_bike_reached_border c7tm 10 5 2 =
      some ({ trips := [⟨0, 0, none, [], TripMode.Drive⟩]
              active_trip_mode := []
              num_bus_trips := 0
              unfinished_trips := 0
              events := [Event.carOrBikeReachedBorder 5 2] },
        [], [Msg.abortStuck]) := by
  decide

/-- C7 (amended): a mode-transition event whose completed leg does not match
the trip's head leg fails a fatal assertion — walking-leg events through
`assert_walking_leg` panic on any mismatch, and `car_or_bike_reached_border`
panics on a Drive-to-Border leg with the wrong intersection — except that
`car_or_bike_reached_border` with a head leg of the wrong variant aborts the
trip (message, decrement) instead of asserting. -/
theorem trip_leg_mismatch_behavior :
    (∀ (env : TripsEnv) (tm : TripManager) (time : ℚ) (ped : PedestrianID)
        (spot : ParkingSpot) (idx : Nat) (atm : List (AgentID × Nat)) (trip : Trip),
      assocRemove tm.active_trip_mode (AgentID.pedestrian ped) = some (idx, atm) →
      tm.trips[idx]? = some trip →
      trip.assert_walking_leg ped (env.parking_spot spot) = none →
      TripManager.ped_reached_parking_spot env tm time ped spot = none) ∧
    (∀ (env : TripsEnv) (tm : TripManager) (time : ℚ) (ped : PedestrianID)
        (spot : SidewalkSpot) (idx : Nat) (atm : List (AgentID × Nat)) (trip : Trip),
      assocRemove tm.active_trip_mode (AgentID.pedestrian ped) = some (idx, atm) →
      tm.trips[idx]? = some trip →
      trip.assert_walking_leg ped spot = none →
      TripManager.ped_ready_to_bike env tm time ped spot = none) ∧
    (∀ (tm : TripManager) (time : ℚ) (car : CarID) (i : IntersectionID)
        (idx : Nat) (atm : List (AgentID × Nat)) (trip : Trip) (vehicle : Vehicle)
        (int : IntersectionID) (lt : LaneType) (rest : List TripLeg),
      assocRemove tm.active_trip_mode (AgentID.car car) = some (idx, atm) →
      tm.trips[idx]? = some trip →
      trip.legs = TripLeg.drive vehicle (DrivingGoal.border int lt) :: rest →
      i ≠ int →
      TripManager.car_or_bike_reached_border tm time car i = none) ∧
    (∀ (tm : TripManager) (time : ℚ) (car : CarID) (i : IntersectionID)
        (idx : Nat) (atm : List (AgentID × Nat)) (trip : Trip) (vehicle : Vehicle)
        (b : BuildingID) (rest : List TripLeg),
      assocRemove tm.active_trip_mode (AgentID.car car) = some (idx, atm) →
      tm.trips[idx]? = some trip →
      trip.legs = TripLeg.drive vehicle (DrivingGoal.parkNear b) :: rest →
      TripManager.car_or_bike_reached_border tm time car i =
        some ({ tm with
                  events := tm.events ++ [Event.carOrBikeReachedBorder car i]
                  active_trip_mode := atm
                  trips := tm.trips.set idx { trip with legs := rest }
                  unfinished_trips := tm.unfinished_trips - 1 },
          [], [Msg.abortStuck])) := by
  refine ⟨?_, ?_, ?_, ?_⟩
  · intro env tm time ped spot idx atm trip ha hg hassert
    simp [TripManager.ped_reached_parking_spot, ha, hg, hassert]
  · intro env tm time ped spot idx atm trip ha hg hassert
    simp [TripManager.ped_ready_to_bike, ha, hg, hassert]
  · intro tm time car i idx atm trip vehicle int lt rest ha hg hlegs hne
    simp [TripManager.car_or_bike_reached_border, ha, hg, hlegs, hne]
  · intro tm time car i idx atm trip vehicle b rest ha hg hlegs
    simp [TripManager.car_or_bike_reached_border, ha, hg, hlegs]

/-- Witness for the amended C7: the three fatal-assertion scenarios and the
abort exception at concrete inputs. -/
theorem trip_leg_mismatch_behavior_witness :
    TripManager.ped_reached_parking_spot c4env c7tmMismatch 10 3 0 = none ∧
    TripManager.ped_ready_to_bike c4env c7tmMismatch 10 3
      ⟨⟨0, 0⟩, SidewalkPOI.bikeRack ⟨4, 0⟩⟩ = none ∧
    TripManager.car_or_bike_reached_border c7tmBorder 10 5 2 = none ∧
    TripManager.car_or_bike_reached_border c7tm 10 5 2 =
      some ({ c7tm with
                events := [Event.carOrBikeReachedBorder 5 2]
                active_trip_mode := []
                trips := c7tm.trips.set 0
                  ⟨0, 0, none, [], TripMode.Drive⟩
                unfinished_trips := 0 },
        [], [Msg.abortStuck]) := by
  refine ⟨?_, ?_, ?_, ?_⟩
  · exact trip_leg_mismatch_behavior.1 c4env c7tmMismatch 10 3 0 0 []
      ⟨0, 0, none,
        [TripLeg.drive ⟨5, VehicleType.car⟩ (DrivingGoal.parkNear 9)],
        TripMode.Drive⟩
      (by decide) (by decide) (by decide)
  · exact trip_leg_mismatch_behavior.2.1 c4env c7tmMismatch 10 3
      ⟨⟨0, 0⟩, SidewalkPOI.bikeRack ⟨4, 0⟩⟩ 0 []
      ⟨0, 0, none,
        [TripLeg.drive ⟨5, VehicleType.car⟩ (DrivingGoal.parkNear 9)],
        TripMode.Drive⟩
      (by decide) (by decide) (by decide)
  · exact trip_leg_mismatch_behavior.2.2.1 c7tmBorder 10 5 2 0 []
      ⟨0, 0, none,
        [TripLeg.drive ⟨5, VehicleType.car⟩ (DrivingGoal.border 4 LaneType.Driving)],
        TripMode.Drive⟩
      ⟨5, VehicleType.car⟩ 4 LaneType.Driving []
      (by decide) (by decide) (by decide) (by decide)
  · exact trip_leg_mismatch_behavior.2.2.2 c7tm 10 5 2 0 []
      ⟨0, 0, none,
        [TripLeg.drive ⟨5, VehicleType.car⟩ (DrivingGoal.parkNear 9)],
        TripMode.Drive⟩
      ⟨5, VehicleType.car⟩ 9 []
      (by decide) (by decide) (by decide)

/-! ## Theorems about the pathfinders -/

/-- Counterexample to C5: the vehicle pathfinder has no same-lane special
case.  On a same-lane request with the start farther along than the end
(where C5 demands a contraflow step), reconstruction from the CH's trivial
one-node path returns a forward Lane step, not a ContraflowLane step. -/
theorem vehicle_pathfind_no_contraflow_counterexample :
    c5req.start.lane = c5req.endp.lane ∧
    c5req.endp.dist_along < c5req.start.dist_along ∧
    c5vp.pathfind c5req c5pmap = some (Outcome.success ⟨[PathStep.lane 0], 2⟩) ∧
    c5vp.pathfind c5req c5pmap ≠
      some (Outcome.success ⟨[PathStep.contraflowLane 0], 2⟩) := by
  refine ⟨rfl, by decide, by decide, by decide⟩

/-- C5 (amended): for every request whose start and end lie on the same lane
with distinct distance-along values, the pedestrian pathfinder returns a
successful single-step path — a forward lane step when the start's
distance-along is less than the end's, and a contraflow lane step
otherwise. -/
theorem sidewalk_pathfind_same_lane_single_step (sp : SidewalkPathfinder)
    (m : PMap) (req : PathRequest) (hsame : req.start.lane = req.endp.lane)
    (hne : req.start.dist_along ≠ req.endp.dist_along) :
    sp.pathfind req m =
      some (some ⟨[if req.start.dist_along < req.endp.dist_along then
          PathStep.lane req.start.lane
        else PathStep.contraflowLane req.start.lane], req.endp.dist_along⟩) := by
  by_cases hlt : req.start.dist_along < req.endp.dist_along <;>
    simp [SidewalkPathfinder.pathfind, hsame, hne, hlt]

/-- Witness for the amended C5: a concrete contraflow same-lane request. -/
theorem sidewalk_pathfind_same_lane_single_step_witness :
    c8sp.pathfind ⟨⟨0, 5⟩, ⟨0, 2⟩, false, false⟩ c8pmap =
      some (some ⟨[if (5 : ℚ) < 2 then PathStep.lane 0
        else PathStep.contraflowLane 0], 2⟩) :=
  sidewalk_pathfind_same_lane_single_step c8sp c8pmap
    ⟨⟨0, 5⟩, ⟨0, 2⟩, false, false⟩ rfl (by decide)

/-- C8: the sidewalk pathfinder panics (assertion failure) on a same-lane
request whose start and end distance-along values are equal, instead of
returning a path or None. -/
theorem sidewalk_pathfind_same_position_panics (sp : SidewalkPathfinder)
    (m : PMap) (req : PathRequest) (hsame : req.start.lane = req.endp.lane)
    (heq : req.start.dist_along = req.endp.dist_along) :
    sp.pathfind req m = none := by
  simp [SidewalkPathfinder.pathfind, hsame, heq]

/-- Witness for C8: a concrete degenerate request panics. -/
theorem sidewalk_pathfind_same_position_panics_witness :
    c8sp.pathfind ⟨⟨0, 2⟩, ⟨0, 2⟩, false, false⟩ c8pmap = none :=
  sidewalk_pathfind_same_position_panics c8sp c8pmap
    ⟨⟨0, 2⟩, ⟨0, 2⟩, false, false⟩ rfl rfl

/-! ## Theorems about dead-end intersection geometry -/

theorem roadsLookup_update (roads : List (Nat × InitialRoad)) (id : Nat)
    (r rr : InitialRoad) (h : roadsLookup roads id = some r) :
    roadsLookup (roadsUpdate roads id rr) id = some rr := by
  induction roads with
  | nil => simp [roadsLookup] at h
  | cons p rest ih =>
    by_cases hp : p.1 = id
    · have hupd : roadsUpdate (p :: rest) id rr
          = (id, rr) :: roadsUpdate rest id rr := by
        simp [roadsUpdate, hp]
      rw [hupd]
      unfold roadsLookup
      rw [List.find?_cons_of_pos _ (by simp)]
      rfl
    · have hbeq : (p.1 == id) = false := by simp [hp]
      have hupd : roadsUpdate (p :: rest) id rr = p :: roadsUpdate rest id rr := by
        simp [roadsUpdate, hbeq, hp]
      have hstep : ∀ l : List (Nat × InitialRoad),
          roadsLookup (p :: l) id = roadsLookup l id := by
        intro l
        unfold roadsLookup
        rw [List.find?_cons_of_neg _ (by simp [hp])]
      rw [hupd, hstep]
      rw [hstep] at h
      exact ih h

/-- C6: for a dead-end intersection (exactly one incident road), when both
band polylines and the centerline are at least 2×5 m long, `deadend` trims
the centerline by exactly 2×5 m (new length = original − 10 m) and emits the
4-vertex polygon of the two trim points and the two band endpoints (closed
by repeating the first); when a band is too short to trim it emits the
degenerate triangle, leaves the road table untouched, and warns. -/
theorem deadend_trim_and_polygon (roads : List (Nat × InitialRoad))
    (i : IntersectionID) (id : Nat) (pl_a pl_b : PolyLine) :
    (∀ r : InitialRoad, roadsLookup roads id = some r →
      10 ≤ pl_a.len → 10 ≤ pl_b.len → 10 ≤ r.trimmed_center_pts.len →
      Pt.approx_eq pl_a.last_pt (pl_a.at_dist (pl_a.len - 10)) (1/10) = false →
      ∃ roads', deadend roads i [(id, pl_a, pl_b)] =
          some (roads',
            [pl_a.at_dist (pl_a.len - 10), pl_b.at_dist (pl_b.len - 10),
              pl_b.last_pt, pl_a.last_pt, pl_a.at_dist (pl_a.len - 10)],
            false) ∧
        (roadsLookup roads' id).map (fun rr => rr.trimmed_center_pts.len)
          = some (r.trimmed_center_pts.len - 10)) ∧
    (pl_a.len < 10 ∨ pl_b.len < 10 →
      deadend roads i [(id, pl_a, pl_b)] =
        some (roads, [pl_a.last_pt, pl_b.last_pt, pl_a.last_pt], true)) := by
  have h10 : DEGENERATE_INTERSECTION_HALF_LENGTH * 2 = (10 : ℚ) := by
    norm_num [DEGENERATE_INTERSECTION_HALF_LENGTH]
  constructor
  · intro r hfound h1 h2 h3 hndg
    have hpt1 : pl_a.reversed.safe_dist_along
        (DEGENERATE_INTERSECTION_HALF_LENGTH * 2)
        = some (pl_a.at_dist (pl_a.len - 10)) := by
      simp only [PolyLine.reversed, PolyLine.safe_dist_along, h10]
      rw [if_pos ⟨by norm_num, h1⟩]
    have hpt2 : pl_b.reversed.safe_dist_along
        (DEGENERATE_INTERSECTION_HALF_LENGTH * 2)
        = some (pl_b.at_dist (pl_b.len - 10)) := by
      simp only [PolyLine.reversed, PolyLine.safe_dist_along, h10]
      rw [if_pos ⟨by norm_num, h2⟩]
    have hclose : close_off_polygon
        [pl_a.at_dist (pl_a.len - 10), pl_b.at_dist (pl_b.len - 10),
          pl_b.last_pt, pl_a.last_pt]
        = some [pl_a.at_dist (pl_a.len - 10), pl_b.at_dist (pl_b.len - 10),
          pl_b.last_pt, pl_a.last_pt, pl_a.at_dist (pl_a.len - 10)] := by
      have hndg' : Pt.approx_eq pl_a.last_pt (pl_a.at_dist (pl_a.len - 10))
          ((10 : ℚ)⁻¹) = false := by
        rw [one_div] at hndg
        exact hndg
      simp [close_off_polygon, hndg, hndg']
    by_cases hsrc : r.src_i = i
    · have hslice : r.trimmed_center_pts.exact_slice
          (DEGENERATE_INTERSECTION_HALF_LENGTH * 2) r.trimmed_center_pts.length
          = some ⟨fun d => r.trimmed_center_pts.at_dist (10 + d),
              r.trimmed_center_pts.len - 10⟩ := by
        simp only [PolyLine.exact_slice, PolyLine.length, h10]
        rw [if_pos ⟨by norm_num, h3, le_refl _⟩]
      refine ⟨roadsUpdate roads id
        { r with trimmed_center_pts :=
            ⟨fun d => r.trimmed_center_pts.at_dist (10 + d),
              r.trimmed_center_pts.len - 10⟩ }, ?_, ?_⟩
      · simp only [deadend, List.head?, hpt1, hpt2, hfound, if_pos hsrc,
          hslice, hclose]
      · rw [roadsLookup_update roads id r _ hfound]
        rfl
    · have hslice : r.trimmed_center_pts.exact_slice 0
          (r.trimmed_center_pts.length - DEGENERATE_INTERSECTION_HALF_LENGTH * 2)
          = some ⟨fun d => r.trimmed_center_pts.at_dist (0 + d),
              r.trimmed_center_pts.len - 10 - 0⟩ := by
        simp only [PolyLine.exact_slice, PolyLine.length, h10]
        rw [if_pos ⟨le_refl _, by linarith, by linarith⟩]
      refine ⟨roadsUpdate roads id
        { r with trimmed_center_pts :=
            ⟨fun d => r.trimmed_center_pts.at_dist (0 + d),
              r.trimmed_center_pts.len - 10 - 0⟩ }, ?_, ?_⟩
      · simp only [deadend, List.head?, hpt1, hpt2, hfound, if_neg hsrc,
          hslice, hclose]
      · rw [roadsLookup_update roads id r _ hfound]
        simp
  · intro hshort
    rcases hshort with hA | hB
    · have hpt1 : pl_a.reversed.safe_dist_along
          (DEGENERATE_INTERSECTION_HALF_LENGTH * 2) = none := by
        simp only [PolyLine.reversed, PolyLine.safe_dist_along, h10]
        rw [if_neg (by intro ⟨_, hc⟩; linarith)]
      simp [deadend, hpt1]
    · have hpt2 : pl_b.reversed.safe_dist_along
          (DEGENERATE_INTERSECTION_HALF_LENGTH * 2) = none := by
        simp only [PolyLine.reversed, PolyLine.safe_dist_along, h10]
        rw [if_neg (by intro ⟨_, hc⟩; linarith)]
      rcases hpt1c : pl_a.reversed.safe_dist_along
          (DEGENERATE_INTERSECTION_HALF_LENGTH * 2) with _ | q1 <;>
        simp [deadend, hpt1c, hpt2]

/-- Witness for C6: a concrete 20 m road trimmed to 10 m with its 4-vertex
polygon, and a concrete 4 m band yielding the degenerate triangle. -/
theorem deadend_trim_and_polygon_witness :
    (∃ roads', deadend c6roads 1 [(3, c6plA, c6plB)] =
        some (roads',
          [c6plA.at_dist (c6plA.len - 10), c6plB.at_dist (c6plB.len - 10),
            c6plB.last_pt, c6plA.last_pt, c6plA.at_dist (c6plA.len - 10)],
          false) ∧
      (roadsLookup roads' 3).map (fun rr => rr.trimmed_center_pts.len)
        = some ((20 : ℚ) - 10)) ∧
    deadend c6roads 1 [(3, c6plShort, c6plB)] =
      some (c6roads, [c6plShort.last_pt, c6plB.last_pt, c6plShort.last_pt],
        true) := by
  constructor
  · exact (deadend_trim_and_polygon c6roads 1 3 c6plA c6plB).1
      ⟨7, 1, ⟨fun d => (d, 1), 20⟩⟩ rfl (by norm_num [c6plA])
      (by norm_num [c6plB]) (by norm_num)
      (by simp only [Pt.approx_eq, c6plA, PolyLine.last_pt,
            decide_eq_false_iff_not]
          norm_num)
  · exact (deadend_trim_and_polygon c6roads 1 3 c6plShort c6plB).2
      (Or.inl (by norm_num [c6plShort]))

/-! ## Theorems about road splitting -/

/-- Invariant of the splitting loop: if the current segment's head maps to
`i1` and its later points are not intersections, every emitted road
satisfies `roadOk`. -/
theorem splitRoadGo_ok (pti : PtToI) (roundIds : List Nat) (orig : RawRoad) :
    ∀ (pts cur : List RawPt) (i1 : Nat) (acc out : List RawRoad),
      splitRoadGo pti roundIds orig pts cur i1 acc = some out →
      ((cur = [] ∧ pts.head?.bind (fun pt => ptiLookup pti pt) = some i1) ∨
        (cur.head?.bind (fun pt => ptiLookup pti pt) = some i1 ∧
          ∀ pt ∈ cur.drop 1, ptiLookup pti pt = none)) →
      (∀ r ∈ acc, roadOk pti r) →
      ∀ r ∈ out, roadOk pti r := by
  intro pts
  induction pts with
  | nil =>
    intro cur i1 acc out hrun hcur hacc
    simp only [splitRoadGo] at hrun
    split at hrun
    · injection hrun with h
      subst h
      exact hacc
    · exact absurd hrun (by simp)
  | cons pt rest ih =>
    intro cur i1 acc out hrun hcur hacc
    rcases hcur with ⟨hnil, hhead⟩ | ⟨hhead, hmid⟩
    · subst hnil
      simp only [splitRoadGo] at hrun
      split at hrun
      case isTrue h1 => simp at h1
      case isFalse h1 =>
        exact ih ([] ++ [pt]) i1 acc out hrun
          (Or.inr ⟨by simpa using hhead, by simp⟩) hacc
    · cases cur with
      | nil => simp at hhead
      | cons c cs =>
        simp only [splitRoadGo] at hrun
        split at hrun
        case isFalse h1 =>
          exact absurd (by
            simp only [List.length_append, List.length_cons, List.length_nil]
            omega) h1
        case isTrue h1 =>
          split at hrun
          case h_2 hlk =>
            refine ih ((c :: cs) ++ [pt]) i1 acc out hrun
              (Or.inr ⟨by simpa using hhead, ?_⟩) hacc
            intro q hq
            have hq' : q ∈ cs ++ [pt] := by simpa using hq
            rcases List.mem_append.mp hq' with hq'' | hq''
            · exact hmid q (by simpa using hq'')
            · have : q = pt := by simpa using hq''
              rw [this]
              exact hlk
          case h_1 i2 hlk =>
            split at hrun
            · simp at hrun
            · refine ih [pt] i2
                (acc ++ [{ orig with points := (c :: cs) ++ [pt], i1 := i1, i2 := i2 }]) out hrun
                (Or.inr ⟨by simp [hlk], by simp⟩) ?_
              intro r hr
              rcases List.mem_append.mp hr with hr' | hr'
              · exact hacc r hr'
              · have hre : r = { orig with points := (c :: cs) ++ [pt], i1 := i1, i2 := i2 } := by
                  simpa using hr'
                rw [hre]
                refine ⟨?_, ?_, ?_, ?_⟩
                · simp only [List.length_append, List.length_cons,
                    List.length_nil]
                  omega
                · simpa using hhead
                · simp only [List.getLast?_concat, Option.bind_some]
                  simpa using hlk
                · intro q hq
                  have hq' : q ∈ ((cs ++ [pt]).dropLast : List RawPt) := by
                    simpa using hq
                  rw [List.dropLast_concat] at hq'
                  exact hmid q (by simpa using hq')

/-- Splitting one road only emits `roadOk` roads. -/
theorem splitRoad_ok (pti : PtToI) (roundIds : List Nat) (orig : RawRoad)
    (out : List RawRoad) (h : splitRoad pti roundIds orig = some out) :
    ∀ r ∈ out, roadOk pti r := by
  unfold splitRoad at h
  split at h
  · simp at h
  · rename_i p0 hh
    split at h
    · simp at h
    · rename_i i1 hl
      exact splitRoadGo_ok pti roundIds orig orig.points [] i1 [] out h
        (Or.inl ⟨rfl, by rw [hh]; simpa using hl⟩) (by simp)

/-- Splitting a road list only emits `roadOk` roads. -/
theorem splitAll_ok (pti : PtToI) (roundIds : List Nat) :
    ∀ (roads : List RawRoad) (out : List RawRoad),
      splitAll pti roundIds roads = some out → ∀ r ∈ out, roadOk pti r := by
  intro roads
  induction roads with
  | nil =>
    intro out h
    simp only [splitAll] at h
    injection h with h
    subst h
    simp
  | cons r0 rest ih =>
    intro out h
    simp only [splitAll] at h
    rcases h1 : splitRoad pti roundIds r0 with _ | out1
    · rw [h1] at h
      simp at h
    · rw [h1] at h
      rcases h2 : splitAll pti roundIds rest with _ | out2
      · rw [h2] at h
        simp at h
      · rw [h2] at h
        injection h with h
        subst h
        intro r hr
        rcases List.mem_append.mp hr with hr' | hr'
        · exact splitRoad_ok pti roundIds r0 out1 h1 r hr'
        · exact ih out2 h2 r hr'

/-- C10: in the map produced by `split_up_roads`, every output road's `i1`
and `i2` are exactly the intersections mapped to its first and last points,
every output road has at least two points, and no interior point of an
output road is an intersection point. -/
theorem split_up_roads_invariants (roads0 : List RawRoad) (m : RawMap)
    (h : split_up_roads roads0 = some m) :
    ∀ r ∈ m.roads, roadOk (splitPti roads0) r := by
  simp only [split_up_roads] at h
  split at h
  · simp at h
  · rename_i roads hs
    injection h with h
    subst h
    intro r hr
    exact splitAll_ok _ _ _ roads hs r hr

/-- Witness for C10 at a concrete input: two crossing ways split into three
edges, all satisfying the invariant. -/
theorem split_up_roads_invariants_witness :
    split_up_roads c10roads = some c10map ∧
    ∀ r ∈ c10map.roads, roadOk (splitPti c10roads) r :=
  ⟨by decide, split_up_roads_invariants c10roads c10map (by decide)⟩

end ABStreet
